import Mathlib

/-
  Verification of the Aurora 0DTE prediction pipeline (dream-machine).

  Shallow embedding of the TypeScript source into Lean 4.  JavaScript
  numbers are modelled as exact rationals; every definition is translated
  from the corresponding source function (file and line references are
  given in the doc comments).  Randomness (Math.random) is made explicit
  as parameters, the database is made explicit as lists of rows, and the
  wall clock is made explicit as arguments.
-/

namespace Aurora

/-- JavaScript Math.max on two numbers, written so that it evaluates by
kernel reduction. -/
def jsMax (a b : ℚ) : ℚ := if a ≤ b then b else a

/-- JavaScript Math.min on two numbers. -/
def jsMin (a b : ℚ) : ℚ := if a ≤ b then a else b

/-- JavaScript Math.abs. -/
def jsAbs (a : ℚ) : ℚ := if a < 0 then -a else a

lemma jsMax_eq (a b : ℚ) : jsMax a b = max a b := by
  unfold jsMax
  rcases le_total a b with h | h
  · simp [h, max_eq_right h]
  · rcases eq_or_lt_of_le h with h1 | h1
    · simp [h1]
    · rw [if_neg (not_le.mpr h1), max_eq_left h]

lemma jsMin_eq (a b : ℚ) : jsMin a b = min a b := by
  unfold jsMin
  rcases le_total a b with h | h
  · simp [h, min_eq_left h]
  · rcases eq_or_lt_of_le h with h1 | h1
    · simp [h1, min_eq_right h]
    · rw [if_neg (not_le.mpr h1), min_eq_right h]

lemma jsAbs_eq (a : ℚ) : jsAbs a = |a| := by
  unfold jsAbs
  rcases lt_or_ge a 0 with h | h
  · rw [if_pos h, abs_of_neg h]
  · rw [if_neg (not_lt.mpr h), abs_of_nonneg h]

/-- JavaScript Math.round: round half toward positive infinity. -/
def jsRound (q : ℚ) : ℤ := ⌊q + 1/2⌋

/-- JavaScript Number(x.toFixed(2)) for nonnegative finite x: round to the
nearest hundredth, ties toward the larger value. -/
def round2 (q : ℚ) : ℚ := (jsRound (q * 100) : ℚ) / 100

/-- Option direction (src/server/aurora/parallax.ts, PredictionDirection). -/
inductive Direction
  | CALL
  | PUT
deriving DecidableEq, Repr

/-- Prediction engine (src/server/aurora/parallax.ts, PredictionEngine). -/
inductive Engine
  | TPO_MIT
  | BLACK_SCHOLES
  | ORB_MOMENTUM
  | ENSEMBLE
deriving DecidableEq, Repr

/-- Pre-market bias (src/server/math/blackscholes.ts). -/
inductive Bias
  | BULLISH
  | BEARISH
  | NEUTRAL
deriving DecidableEq, Repr

/-! ## Clock and calendar (src/server/aurora/time.ts) -/

/-- Market session tag (src/server/aurora/time.ts, MarketSession). -/
inductive MarketSession
  | CLOSED_WEEKEND
  | CLOSED_HOLIDAY
  | CLOSED
  | PRE_MARKET
  | OPENING_RANGE
  | MORNING
  | AFTERNOON
  | POWER_HOUR
  | OPEN
deriving DecidableEq, Repr

/-- The if-cascade of MarketTime.getSession over the locals totalMinutes
and closeTime (src/server/aurora/time.ts lines 26-44), including the
unreachable OPEN fallback. -/
def sessionOfMinutes (totalMinutes closeTime : ℕ) : MarketSession :=
  if totalMinutes ≥ closeTime ∨ totalMinutes < 240 then .CLOSED
  else if totalMinutes ≥ 240 ∧ totalMinutes < 570 then .PRE_MARKET
  else if totalMinutes ≥ 570 ∧ totalMinutes < min 600 closeTime then .OPENING_RANGE
  else if totalMinutes ≥ 600 ∧ totalMinutes < min 720 closeTime then .MORNING
  else if totalMinutes ≥ 720 ∧ totalMinutes < min 780 closeTime then .AFTERNOON
  else if totalMinutes ≥ 780 ∧ totalMinutes < closeTime then .POWER_HOUR
  else if totalMinutes ≥ 570 ∧ totalMinutes < closeTime then .OPEN
  else .CLOSED

/-- MarketTime.getSession (src/server/aurora/time.ts lines 19-45).  The
luxon wall-clock read is made explicit: weekday is 1 (Monday) .. 7
(Sunday), dateStr is the formatted local date, hour and minute are the
local time of day. -/
def getSession (weekday : ℕ) (dateStr : String) (hour minute : ℕ)
    (holidays halfDays : List String) : MarketSession :=
  if weekday > 5 then .CLOSED_WEEKEND
  else if holidays.contains dateStr then .CLOSED_HOLIDAY
  else sessionOfMinutes (hour * 60 + minute)
    (if halfDays.contains dateStr then 780 else 960)

/-! ## Risk projector (src/server/math/options_risk.ts) -/

/-- Stock-price trade levels (src/server/math/options_risk.ts, StockLevels). -/
structure StockLevels where
  entry : ℚ
  stop : ℚ
  target : ℚ
deriving DecidableEq, Repr

/-- Greeks from the option chain (src/server/math/options_risk.ts, Greeks). -/
structure Greeks where
  delta : ℚ
  gamma : ℚ
deriving DecidableEq, Repr

/-- Option-contract trade plan (src/server/math/options_risk.ts,
OptionTradePlan).  The column riskRewardRatio of the predictions table is
called riskReward here, as in this source interface. -/
structure OptionTradePlan where
  contractEntry : ℚ
  contractStop : ℚ
  contractTarget : ℚ
  underlyingTrigger : ℚ
  riskReward : ℚ
deriving DecidableEq, Repr

/-- OptionsRiskCalculator.calculate (src/server/math/options_risk.ts lines
37-76): project stock levels onto option premiums by absolute delta, clamp
at 0.05, round the returned premiums and the risk-reward ratio to cents. -/
def OptionsRiskCalculator.calculate (currentOptionAsk : ℚ)
    (stockLevels : StockLevels) (greeks : Greeks) : OptionTradePlan :=
  let distToStop := stockLevels.stop - stockLevels.entry
  let distToTarget := stockLevels.target - stockLevels.entry
  let absDelta := jsAbs greeks.delta
  let stopLossDrop := jsAbs distToStop * absDelta
  let targetGain := jsAbs distToTarget * absDelta
  let estimatedStop := jsMax (5/100) (currentOptionAsk - stopLossDrop)
  let estimatedTarget := jsMax (5/100) (currentOptionAsk + targetGain)
  let risk := currentOptionAsk - estimatedStop
  let reward := estimatedTarget - currentOptionAsk
  let riskReward := if risk > 0 then round2 (reward / risk) else 0
  { contractEntry := round2 currentOptionAsk
    contractStop := round2 estimatedStop
    contractTarget := round2 estimatedTarget
    underlyingTrigger := stockLevels.entry
    riskReward := riskReward }

/-- The stop premium as the claim states it (spec section 4.D): projected
stop premium = max(0.05, midNow - stopDist times absolute delta), with no
rounding. -/
def claimContractStop (midNow : ℚ) (stockLevels : StockLevels) (greeks : Greeks) : ℚ :=
  jsMax (5/100) (midNow - jsAbs (stockLevels.stop - stockLevels.entry) * jsAbs greeks.delta)

/-- The target premium as the claim states it (spec section 4.D), with no
rounding. -/
def claimContractTarget (midNow : ℚ) (stockLevels : StockLevels) (greeks : Greeks) : ℚ :=
  jsMax (5/100) (midNow + jsAbs (stockLevels.target - stockLevels.entry) * jsAbs greeks.delta)

/-! ## Grader premium projection (src/server/aurora/reconcile.ts) -/

/-- The premium estimate of Reconcile.gradeOpenTrades
(src/server/aurora/reconcile.ts lines 68-75).  The source sets
estimatedDelta to 0.5 for CALL and -0.5 for PUT and then multiplies the
underlying move by Math.abs(estimatedDelta), so both directions use +0.5. -/
def gradeCurrentPremium (direction : Direction) (entryPremium : ℚ)
    (entryPrice : Option ℚ) (strike : ℚ) (close : ℚ) : ℚ :=
  let estimatedDelta : ℚ := match direction with | .CALL => 1/2 | .PUT => -(1/2)
  let underlyingMove := close - entryPrice.getD strike
  let estimatedPremiumChange := underlyingMove * jsAbs estimatedDelta
  jsMax (1/100) (entryPremium + estimatedPremiumChange)

/-- The premium estimate as the claim states it (spec section 4.H):
entryPremium + (currentStock - predictedEntryStock) times sign times 0.5,
sign +1 for CALL and -1 for PUT, floored at 0.01. -/
def claimCurrentPremium (direction : Direction) (entryPremium entryStock close : ℚ) : ℚ :=
  let sign : ℚ := match direction with | .CALL => 1 | .PUT => -1
  jsMax (1/100) (entryPremium + (close - entryStock) * sign * (1/2))

/-- The WIN/LOSS decision of Reconcile.gradeOpenTrades
(src/server/aurora/reconcile.ts lines 81-89). -/
def gradeDecision (currentPremium targetPremium stopPremium pnl : ℚ) : Bool :=
  if currentPremium ≥ targetPremium then true
  else if currentPremium ≤ stopPremium then false
  else pnl > 0

/-! ## Strategy genes and the genetic operators
(src/server/praxis/evolution.ts) -/

/-- The genome (src/server/praxis/evolution.ts, StrategyGenes). -/
structure StrategyGenes where
  tpoWeight : ℚ
  rsiWeight : ℚ
  ibWeight : ℚ
  cvdWeight : ℚ
  vwapWeight : ℚ
  minConfidence : ℚ
  orbBreakoutMultiplier : ℚ
  stopLossMultiplier : ℚ
  targetMultiplier : ℚ
deriving DecidableEq, Repr

/-- DEFAULT_GENES (src/server/praxis/evolution.ts lines 201-211). -/
def DEFAULT_GENES : StrategyGenes :=
  { tpoWeight := 25/100
    rsiWeight := 20/100
    ibWeight := 20/100
    cvdWeight := 15/100
    vwapWeight := 20/100
    minConfidence := 60
    orbBreakoutMultiplier := 1
    stopLossMultiplier := 5/10
    targetMultiplier := 2 }

/-- clamp (src/server/praxis/evolution.ts lines 219-221). -/
def clamp (value lo hi : ℚ) : ℚ := jsMax lo (jsMin hi value)

/-- Sum of the five component weights of a genome. -/
def weightSum5 (g : StrategyGenes) : ℚ :=
  g.tpoWeight + g.rsiWeight + g.ibWeight + g.cvdWeight + g.vwapWeight

/-- normalizeWeights (src/server/praxis/evolution.ts lines 241-253). -/
def normalizeWeights (genes : StrategyGenes) : StrategyGenes :=
  let total := genes.tpoWeight + genes.rsiWeight + genes.ibWeight +
    genes.cvdWeight + genes.vwapWeight
  if total = 0 then DEFAULT_GENES
  else
    { genes with
      tpoWeight := genes.tpoWeight / total
      rsiWeight := genes.rsiWeight / total
      ibWeight := genes.ibWeight / total
      cvdWeight := genes.cvdWeight / total
      vwapWeight := genes.vwapWeight / total }

/-- One Math.random draw per field of mutate: whether the mutation fires,
and the uniform noise drawn for it. -/
structure MutationDraws where
  fireTpo : Bool
  noiseTpo : ℚ
  fireRsi : Bool
  noiseRsi : ℚ
  fireIb : Bool
  noiseIb : ℚ
  fireCvd : Bool
  noiseCvd : ℚ
  fireVwap : Bool
  noiseVwap : ℚ
  fireMinConf : Bool
  noiseMinConf : ℚ
  fireOrb : Bool
  noiseOrb : ℚ
  fireStop : Bool
  noiseStop : ℚ
  fireTarget : Bool
  noiseTarget : ℚ

/-- mutate (src/server/praxis/evolution.ts lines 255-287), with the
Math.random draws passed in explicitly.  The nine sequential if-blocks of
the source each overwrite one distinct field of the copy, so the result is
rendered field-wise, followed by the renormalization. -/
def mutate (genes : StrategyGenes) (d : MutationDraws) : StrategyGenes :=
  normalizeWeights
    { tpoWeight := if d.fireTpo then
        clamp (genes.tpoWeight + d.noiseTpo) (5/100) (5/10) else genes.tpoWeight
      rsiWeight := if d.fireRsi then
        clamp (genes.rsiWeight + d.noiseRsi) (5/100) (4/10) else genes.rsiWeight
      ibWeight := if d.fireIb then
        clamp (genes.ibWeight + d.noiseIb) (5/100) (4/10) else genes.ibWeight
      cvdWeight := if d.fireCvd then
        clamp (genes.cvdWeight + d.noiseCvd) (5/100) (3/10) else genes.cvdWeight
      vwapWeight := if d.fireVwap then
        clamp (genes.vwapWeight + d.noiseVwap) (5/100) (4/10) else genes.vwapWeight
      minConfidence := if d.fireMinConf then
        clamp (genes.minConfidence + d.noiseMinConf) 50 80 else genes.minConfidence
      orbBreakoutMultiplier := if d.fireOrb then
        clamp (genes.orbBreakoutMultiplier + d.noiseOrb) (3/10) 3
        else genes.orbBreakoutMultiplier
      stopLossMultiplier := if d.fireStop then
        clamp (genes.stopLossMultiplier + d.noiseStop) (2/10) (8/10)
        else genes.stopLossMultiplier
      targetMultiplier := if d.fireTarget then
        clamp (genes.targetMultiplier + d.noiseTarget) (12/10) 4
        else genes.targetMultiplier }

/-- One Math.random draw per field of crossover: true picks parent1. -/
structure CrossoverDraws where
  pickTpo : Bool
  pickRsi : Bool
  pickIb : Bool
  pickCvd : Bool
  pickVwap : Bool
  pickMinConf : Bool
  pickOrb : Bool
  pickStop : Bool
  pickTarget : Bool

/-- crossover (src/server/praxis/evolution.ts lines 289-303), with the
Math.random draws passed in explicitly. -/
def crossover (parent1 parent2 : StrategyGenes) (d : CrossoverDraws) : StrategyGenes :=
  normalizeWeights
    { tpoWeight := if d.pickTpo then parent1.tpoWeight else parent2.tpoWeight
      rsiWeight := if d.pickRsi then parent1.rsiWeight else parent2.rsiWeight
      ibWeight := if d.pickIb then parent1.ibWeight else parent2.ibWeight
      cvdWeight := if d.pickCvd then parent1.cvdWeight else parent2.cvdWeight
      vwapWeight := if d.pickVwap then parent1.vwapWeight else parent2.vwapWeight
      minConfidence := if d.pickMinConf then parent1.minConfidence else parent2.minConfidence
      orbBreakoutMultiplier :=
        if d.pickOrb then parent1.orbBreakoutMultiplier else parent2.orbBreakoutMultiplier
      stopLossMultiplier :=
        if d.pickStop then parent1.stopLossMultiplier else parent2.stopLossMultiplier
      targetMultiplier :=
        if d.pickTarget then parent1.targetMultiplier else parent2.targetMultiplier }

/-- The five component weights are nonnegative. -/
def NonnegWeights (g : StrategyGenes) : Prop :=
  0 ≤ g.tpoWeight ∧ 0 ≤ g.rsiWeight ∧ 0 ≤ g.ibWeight ∧ 0 ≤ g.cvdWeight ∧ 0 ≤ g.vwapWeight

instance : DecidablePred NonnegWeights := fun g => by
  unfold NonnegWeights; infer_instance

/-! ## Optimizer fitness (src/server/praxis/evolution.ts) -/

/-- A row of the outcomes-to-predictions inner join, as read by
calculateFitness.  Only the actualPnl column is consumed; it is nullable
in the schema. -/
structure JoinedOutcome where
  actualPnl : Option ℚ
deriving DecidableEq, Repr

/-- calculateFitness (src/server/praxis/evolution.ts lines 320-344).  The
database read of the outcomes join is passed in as a list; the genes
argument is kept exactly as in the source, where it is never read. -/
def calculateFitness (genes : StrategyGenes) (outcomes : List JoinedOutcome) : ℚ :=
  if outcomes.length = 0 then 1/2
  else
    let acc := outcomes.foldl
      (fun (acc : ℕ × ℚ) row =>
        let pnl := row.actualPnl.getD 0
        (if pnl > 0 then acc.1 + 1 else acc.1, acc.2 + pnl))
      (0, 0)
    let winRate : ℚ := (acc.1 : ℚ) / outcomes.length
    let avgPnl : ℚ := acc.2 / outcomes.length
    winRate * (7/10) + (if avgPnl > 0 then 3/10 else 0)

/-! ## Market data and technical indicators (src/server/math/types.ts,
src/server/math/technicals.ts) -/

/-- OHLCV bar (src/server/math/types.ts, Candle).  Timestamps are modelled
at minute granularity as integers; the source setSeconds(0,0) call and the
luxon conversions are then the identity. -/
structure Candle where
  timestamp : ℤ
  openPrice : ℚ
  high : ℚ
  low : ℚ
  close : ℚ
  volume : ℚ
deriving DecidableEq, Repr

/-- Maximum of a list, the spread Math.max(...xs) over a nonempty array;
0 for the empty list (unreachable at every call site). -/
def listMax : List ℚ → ℚ
  | [] => 0
  | x :: xs => xs.foldl jsMax x

/-- Minimum of a list, the spread Math.min(...xs). -/
def listMin : List ℚ → ℚ
  | [] => 0
  | x :: xs => xs.foldl jsMin x

/-- calculateSMA (src/server/math/technicals.ts lines 26-31). -/
def calculateSMA (values : List ℚ) (period : ℕ) : Option ℚ :=
  if values.length < period then none
  else some ((values.drop (values.length - period)).sum / period)

/-- calculateRSI (src/server/math/technicals.ts lines 47-78): Wilder
smoothing, avgLoss = 0 gives 100, none below period+1 closes. -/
def calculateRSI (closes : List ℚ) (period : ℕ) : Option ℚ :=
  if closes.length < period + 1 then none
  else
    let changes := (closes.zip closes.tail).map (fun pair => pair.2 - pair.1)
    let gains := changes.map (fun c => if c > 0 then c else 0)
    let losses := changes.map (fun c => if c < 0 then jsAbs c else 0)
    if gains.length < period then none
    else
      let initGain := (gains.take period).sum / period
      let initLoss := (losses.take period).sum / period
      let acc := ((gains.drop period).zip (losses.drop period)).foldl
        (fun (a : ℚ × ℚ) gl =>
          ((a.1 * (period - 1 : ℕ) + gl.1) / period, (a.2 * (period - 1 : ℕ) + gl.2) / period))
        (initGain, initLoss)
      if acc.2 = 0 then some 100
      else some (100 - 100 / (1 + acc.1 / acc.2))

/-- calculateVWAP (src/server/math/technicals.ts lines 80-94). -/
def calculateVWAP (candles : List Candle) : Option ℚ :=
  if candles.length = 0 then none
  else
    let tpv := (candles.map (fun c => (c.high + c.low + c.close) / 3 * c.volume)).sum
    let vol := (candles.map (fun c => c.volume)).sum
    if vol = 0 then none else some (tpv / vol)

/-- calculateATR (src/server/math/technicals.ts lines 116-147): Wilder
smoothing of the true range. -/
def calculateATR (candles : List Candle) (period : ℕ) : Option ℚ :=
  if candles.length < period + 1 then none
  else
    let trueRanges := (candles.zip candles.tail).map (fun pair =>
      jsMax (pair.2.high - pair.2.low)
        (jsMax (jsAbs (pair.2.high - pair.1.close)) (jsAbs (pair.2.low - pair.1.close))))
    if trueRanges.length < period then none
    else
      let initAtr := (trueRanges.take period).sum / period
      some ((trueRanges.drop period).foldl
        (fun a tr => (a * (period - 1 : ℕ) + tr) / period) initAtr)

/-- computeTechnicalSnapshot (src/server/math/technicals.ts lines
149-164).  The Bollinger fields involve a real square root and are never
read by the prediction engines or the backtest, so they are not carried. -/
structure TechnicalSnapshot where
  rsi14 : Option ℚ
  rsi5 : Option ℚ
  sma9 : Option ℚ
  sma20 : Option ℚ
  vwap : Option ℚ
  atr : Option ℚ
deriving DecidableEq, Repr

def computeTechnicalSnapshot (candles : List Candle) : TechnicalSnapshot :=
  let closes := candles.map (fun c => c.close)
  { rsi14 := calculateRSI closes 14
    rsi5 := calculateRSI closes 5
    sma9 := calculateSMA closes 9
    sma20 := calculateSMA closes 20
    vwap := calculateVWAP candles
    atr := calculateATR candles 14 }

/-- RSI signal (src/server/math/technicals.ts lines 166-170). -/
inductive RsiSignal
  | OVERSOLD
  | OVERBOUGHT
  | NEUTRAL
deriving DecidableEq, Repr

def getRSISignal (rsi : ℚ) : RsiSignal :=
  if rsi < 30 then .OVERSOLD
  else if rsi > 70 then .OVERBOUGHT
  else .NEUTRAL

/-! ## TPO profile (src/server/math/tpo.ts) -/

/-- roundToTick (src/server/math/tpo.ts lines 615-617). -/
def roundToTick (price tickSize : ℚ) : ℚ := (jsRound (price / tickSize) : ℚ) * tickSize

/-- The tick prices visited by the inner loop of buildTPOProfile
(src/server/math/tpo.ts line 644): low, low + tick, ..., up to high.  The
bounds are already tick-rounded at every call, so the re-rounding of each
step in the source is the identity and the count is (high - low)/tick + 1;
an inverted or non-positive-tick range visits nothing. -/
def tickWalk (start tickSize : ℚ) : ℕ → List ℚ
  | 0 => []
  | n + 1 => start :: tickWalk (start + tickSize) tickSize n

def tickPrices (low high tickSize : ℚ) : List ℚ :=
  if tickSize ≤ 0 ∨ high < low then []
  else tickWalk low tickSize (1 + (((high - low) / tickSize).floor).toNat)

/-- The volume histogram, the volumeByPrice object of buildTPOProfile.
Keys are tick prices; insertion keeps the first-insertion order, and the
source sorts the keys numerically before using them. -/
def addVolume : List (ℚ × ℚ) → ℚ → ℚ → List (ℚ × ℚ)
  | [], p, v => [(p, v)]
  | (q, w) :: rest, p, v =>
    if q = p then (q, w + v) :: rest else (q, w) :: addVolume rest p v

def lookupVolume : List (ℚ × ℚ) → ℚ → ℚ
  | [], _ => 0
  | (q, w) :: rest, p => if q = p then w else lookupVolume rest p

/-- One candle of the accumulation loop of buildTPOProfile
(src/server/math/tpo.ts lines 634-648). -/
def addCandleVolume (tickSize : ℚ) (acc : List (ℚ × ℚ) × ℚ) (c : Candle) :
    List (ℚ × ℚ) × ℚ :=
  let low := roundToTick c.low tickSize
  let high := roundToTick c.high tickSize
  let numTicks : ℤ := if (1 : ℤ) ≤ jsRound ((high - low) / tickSize) + 1
    then jsRound ((high - low) / tickSize) + 1 else 1
  let volumePerTick := c.volume / (numTicks : ℚ)
  (tickPrices low high tickSize).foldl
    (fun a p => (addVolume a.1 p volumePerTick, a.2 + volumePerTick)) acc

/-- Ascending insertion sort for the price keys
(src/server/math/tpo.ts lines 654-656). -/
def insertSorted (x : ℚ) : List ℚ → List ℚ
  | [] => [x]
  | y :: ys => if x ≤ y then x :: y :: ys else y :: insertSorted x ys

def sortAsc (l : List ℚ) : List ℚ := l.foldr insertSorted []

def indexOfQ : List ℚ → ℚ → ℕ
  | [], _ => 0
  | y :: ys, x => if y = x then 0 else indexOfQ ys x + 1

/-- The value-area expansion loop of buildTPOProfile
(src/server/math/tpo.ts lines 674-690).  The loop moves one index per
iteration and each index moves at most the list length, so a fuel of the
list length never runs out before the while-condition fails. -/
def vaLoop (prices : List ℚ) (vols : List (ℚ × ℚ)) (target : ℚ) :
    ℕ → ℚ → ℕ → ℕ → ℕ × ℕ
  | 0, _, lo, hi => (lo, hi)
  | fuel + 1, cur, lo, hi =>
    if cur < target ∧ (0 < lo ∨ hi + 1 < prices.length) then
      let lowCand := if 0 < lo then lookupVolume vols (prices.getD (lo - 1) 0) else 0
      let highCand := if hi + 1 < prices.length
        then lookupVolume vols (prices.getD (hi + 1) 0) else 0
      if lowCand ≥ highCand ∧ 0 < lo then
        vaLoop prices vols target fuel (cur + lowCand) (lo - 1) hi
      else if hi + 1 < prices.length then
        vaLoop prices vols target fuel (cur + highCand) lo (hi + 1)
      else if 0 < lo then
        vaLoop prices vols target fuel (cur + lowCand) (lo - 1) hi
      else (lo, hi)
    else (lo, hi)

/-- TPO profile (src/server/math/tpo.ts, TPOProfile).  The impulse reuses
the Bias enum for BULLISH / BEARISH / NEUTRAL; priceRange becomes the
rangeHigh and rangeLow fields. -/
structure TPOProfile where
  poc : ℚ
  vah : ℚ
  val : ℚ
  impulse : Bias
  profileData : List (ℚ × ℚ)
  totalVolume : ℚ
  rangeHigh : ℚ
  rangeLow : ℚ
deriving DecidableEq, Repr

/-- buildTPOProfile (src/server/math/tpo.ts lines 619-720). -/
def buildTPOProfile (candles : List Candle) (tickSize valueAreaPercent : ℚ) :
    Option TPOProfile :=
  match candles with
  | [] => none
  | c0 :: _ =>
    let acc := candles.foldl (addCandleVolume tickSize) ([], 0)
    let volumeByPrice := acc.1
    let totalVolume := acc.2
    if volumeByPrice.length = 0 then none
    else
      let pricesSorted := sortAsc (volumeByPrice.map (fun kv => kv.1))
      let poc := (pricesSorted.foldl
        (fun (st : ℚ × ℚ) p =>
          if lookupVolume volumeByPrice p > st.1 then (lookupVolume volumeByPrice p, p) else st)
        (0, pricesSorted.headD 0)).2
      let targetVolume := totalVolume * valueAreaPercent
      let pocIndex := indexOfQ pricesSorted poc
      let lohi := vaLoop pricesSorted volumeByPrice targetVolume
        pricesSorted.length (lookupVolume volumeByPrice poc) pocIndex pocIndex
      let val := pricesSorted.getD lohi.1 0
      let vah := pricesSorted.getD lohi.2 0
      let sessionHigh := listMax (candles.map (fun c => c.high))
      let sessionLow := listMin (candles.map (fun c => c.low))
      let openPrice := c0.openPrice
      let closePrice := (candles.getLastD c0).close
      let priceChange := closePrice - openPrice
      let range := sessionHigh - sessionLow
      let changePercent := if range > 0 then jsAbs priceChange / range else 0
      let impulse : Bias := if changePercent < 1/10 then .NEUTRAL
        else if priceChange > 0 then .BULLISH else .BEARISH
      some { poc := roundToTick poc tickSize
             vah := roundToTick vah tickSize
             val := roundToTick val tickSize
             impulse := impulse
             profileData := volumeByPrice
             totalVolume := totalVolume
             rangeHigh := sessionHigh
             rangeLow := sessionLow }

/-- TPO bias (src/server/math/tpo.ts, getTPOSignal). -/
inductive TpoBias
  | LONG
  | SHORT
  | NEUTRAL
deriving DecidableEq, Repr

structure TPOSignal where
  bias : TpoBias
  reason : String
deriving DecidableEq, Repr

/-- getTPOSignal (src/server/math/tpo.ts lines 726-749).  The POC
proximity test divides by poc; the poc = 0 guard mirrors the JavaScript
comparison being false on a division by zero. -/
def getTPOSignal (currentPrice : ℚ) (profile : TPOProfile) : TPOSignal :=
  if currentPrice > profile.vah then
    ⟨.SHORT, "Price above VAH - potential mean reversion"⟩
  else if currentPrice < profile.val then
    ⟨.LONG, "Price below VAL - potential mean reversion"⟩
  else if profile.poc ≠ 0 ∧ jsAbs (currentPrice - profile.poc) / profile.poc < 1/1000 then
    ⟨.NEUTRAL, "Price at POC - fair value"⟩
  else if currentPrice > profile.poc then
    ⟨.LONG, "Price above POC within value area - bullish bias"⟩
  else
    ⟨.SHORT, "Price below POC within value area - bearish bias"⟩

/-! ## Institutional flow (src/server/math/institutional.ts) -/

inductive OpeningType
  | OPEN_DRIVE
  | OPEN_TEST_DRIVE
  | OPEN_REJECTION_REVERSE
  | OPEN_AUCTION
deriving DecidableEq, Repr

structure InitialBalance where
  ibHigh : ℚ
  ibLow : ℚ
  ibWidth : ℚ
  openingType : OpeningType
  isClean : Bool
deriving DecidableEq, Repr

def touchesLow : List Candle → ℚ → Bool
  | [], _ => false
  | c :: rest, x => if c.low = x then true else touchesLow rest x

def touchesHigh : List Candle → ℚ → Bool
  | [], _ => false
  | c :: rest, x => if c.high = x then true else touchesHigh rest x

/-- classifyOpeningType (src/server/math/institutional.ts lines 72-112). -/
def classifyOpeningType (openPrice ibHigh ibLow ibWidth : ℚ)
    (ibCandles : List Candle) : OpeningType :=
  if ibCandles.length < 2 then .OPEN_AUCTION
  else
    let closePrice := match ibCandles.getLast? with
      | some c => c.close
      | none => 0
    let openToHighDist := ibHigh - openPrice
    let openToLowDist := openPrice - ibLow
    let closeToHighDist := ibHigh - closePrice
    let closeToLowDist := closePrice - ibLow
    let threshold := ibWidth * (2/10)
    if openToLowDist < threshold ∧ closeToHighDist < threshold then .OPEN_DRIVE
    else if openToHighDist < threshold ∧ closeToLowDist < threshold then .OPEN_DRIVE
    else if openToLowDist < threshold ∧ closeToLowDist < threshold then .OPEN_REJECTION_REVERSE
    else if openToHighDist < threshold ∧ closeToHighDist < threshold then .OPEN_REJECTION_REVERSE
    else if touchesLow ibCandles ibLow ∧ touchesHigh ibCandles ibHigh ∧
        jsAbs (closePrice - openPrice) < ibWidth * (3/10) then .OPEN_TEST_DRIVE
    else .OPEN_AUCTION

/-- The gap scan of the isClean flag (src/server/math/institutional.ts
lines 57-61): any consecutive pair whose open jumps more than a tenth of
the IB width. -/
def gapScan (width : ℚ) : List Candle → Bool
  | c1 :: c2 :: rest =>
    if jsAbs (c2.openPrice - c1.close) > width * (1/10) then true
    else gapScan width (c2 :: rest)
  | _ => false

/-- calculateInitialBalance (src/server/math/institutional.ts lines
34-70). -/
def calculateInitialBalance (candles : List Candle) (ibDurationMinutes : ℤ) :
    Option InitialBalance :=
  match candles with
  | [] => none
  | c0 :: _ =>
    let ibCutoff := c0.timestamp + ibDurationMinutes
    let ibCandles := candles.filter (fun c => c.timestamp < ibCutoff)
    if ibCandles.length = 0 then none
    else
      let ibHigh := listMax (ibCandles.map (fun c => c.high))
      let ibLow := listMin (ibCandles.map (fun c => c.low))
      let ibWidth := ibHigh - ibLow
      some { ibHigh := ibHigh
             ibLow := ibLow
             ibWidth := ibWidth
             openingType := classifyOpeningType c0.openPrice ibHigh ibLow ibWidth ibCandles
             isClean := ! gapScan ibWidth ibCandles }

/-- calculateDelta (src/server/math/institutional.ts lines 114-120); the
JavaScript (high - low || 1) falls back to 1 only on a zero range. -/
def calculateDelta (c : Candle) : ℚ :=
  let body := c.close - c.openPrice
  let denom := if c.high - c.low = 0 then 1 else c.high - c.low
  let bodyPercent := jsAbs body / denom
  let sign : ℚ := if body ≥ 0 then 1 else -1
  sign * c.volume * bodyPercent

/-- The last entry of calculateCumulativeDelta
(src/server/math/institutional.ts lines 122-133), which is the total of
the per-candle deltas; the (last || 0) of the caller is the empty sum. -/
def cumulativeDeltaLast (candles : List Candle) : ℚ :=
  (candles.map calculateDelta).sum

/-- calculateAnchoredVWAP (src/server/math/institutional.ts lines
135-153). -/
def calculateAnchoredVWAP (candles : List Candle) (anchorIndex : ℕ) : Option ℚ :=
  if candles.length = 0 ∨ anchorIndex ≥ candles.length then none
  else
    let rest := candles.drop anchorIndex
    let tpv := (rest.map (fun c => (c.high + c.low + c.close) / 3 * c.volume)).sum
    let vol := (rest.map (fun c => c.volume)).sum
    if vol = 0 then none else some (tpv / vol)

/-- detectCVDDivergence (src/server/math/institutional.ts lines 155-160);
the UP / DOWN directions are modelled as booleans, true for UP. -/
def detectCVDDivergence (priceUp cvdUp : Bool) : Bool :=
  if priceUp = cvdUp then false else true

structure OrderFlowSnapshot where
  delta : ℚ
  cumulativeDelta : ℚ
  anchoredVwap : ℚ
  cvdDivergence : Bool
deriving DecidableEq, Repr

/-- computeOrderFlowSnapshot (src/server/math/institutional.ts lines
162-188). -/
def computeOrderFlowSnapshot (candles : List Candle) (anchorIndex : ℕ) :
    Option OrderFlowSnapshot :=
  match candles with
  | [] => none
  | c0 :: _ =>
    let lastCandle := candles.getLastD c0
    let delta := calculateDelta lastCandle
    let cumulativeDelta := cumulativeDeltaLast candles
    (calculateAnchoredVWAP candles anchorIndex).map (fun anchoredVwap =>
      let priceUp := if candles.length > 1 ∧ lastCandle.close > c0.close then true else false
      let cvdUp := if cumulativeDelta > 0 then true else false
      { delta := delta
        cumulativeDelta := cumulativeDelta
        anchoredVwap := anchoredVwap
        cvdDivergence := detectCVDDivergence priceUp cvdUp })

/-! ## Opening range breakout (src/server/math/orb.ts) -/

structure ORBLevels where
  high : ℚ
  low : ℚ
  mid : ℚ
  rangeSize : ℚ
  targetBull1 : ℚ
  targetBull2 : ℚ
  targetBear1 : ℚ
  targetBear2 : ℚ
  stopLossLong : ℚ
  stopLossShort : ℚ
deriving DecidableEq, Repr

/-- calculateORB (src/server/math/orb.ts lines 239-271).  The isFinite
guard of the source can only fail on an empty array, which is already
rejected. -/
def calculateORB (candles : List Candle) : Option ORBLevels :=
  match candles with
  | [] => none
  | _ =>
    let rangeHigh := listMax (candles.map (fun c => c.high))
    let rangeLow := listMin (candles.map (fun c => c.low))
    let rangeSize := rangeHigh - rangeLow
    let midPoint := rangeLow + rangeSize / 2
    some { high := rangeHigh
           low := rangeLow
           mid := midPoint
           rangeSize := rangeSize
           targetBull1 := rangeHigh + rangeSize
           targetBull2 := rangeHigh + rangeSize * 2
           targetBear1 := rangeLow - rangeSize
           targetBear2 := rangeLow - rangeSize * 2
           stopLossLong := midPoint
           stopLossShort := midPoint }

/-! ## Stock-level trade plans (src/server/math/risk.ts) -/

structure TradePlan where
  entry : ℚ
  stop : ℚ
  target : ℚ
  riskReward : ℚ
deriving DecidableEq, Repr

/-- RiskCalculator.fromORB (src/server/math/risk.ts lines 89-119). -/
def RiskCalculator.fromORB (levels : ORBLevels) (direction : Direction) : TradePlan :=
  match direction with
  | .CALL =>
    let entry := levels.high + 5/100
    let stop := levels.stopLossLong
    let target := levels.targetBull1
    let risk := entry - stop
    let reward := target - entry
    ⟨entry, stop, target, if risk > 0 then reward / risk else 0⟩
  | .PUT =>
    let entry := levels.low - 5/100
    let stop := levels.stopLossShort
    let target := levels.targetBear1
    let risk := stop - entry
    let reward := entry - target
    ⟨entry, stop, target, if risk > 0 then reward / risk else 0⟩

/-- RiskCalculator.fromTPO (src/server/math/risk.ts lines 124-157). -/
def RiskCalculator.fromTPO (profile : TPOProfile) (currentPrice : ℚ)
    (direction : Direction) (atr : ℚ) : TradePlan :=
  match direction with
  | .PUT =>
    let entry := currentPrice
    let stop := profile.vah + atr
    let target := profile.poc
    let risk := stop - entry
    let reward := entry - target
    ⟨entry, stop, target, if risk > 0 then reward / risk else 0⟩
  | .CALL =>
    let entry := currentPrice
    let stop := profile.val - atr
    let target := profile.poc
    let risk := entry - stop
    let reward := target - entry
    ⟨entry, stop, target, if risk > 0 then reward / risk else 0⟩

/-- RiskCalculator.fromBlackScholes (src/server/math/risk.ts lines
162-197). -/
def RiskCalculator.fromBlackScholes (currentPrice expectedMove : ℚ)
    (direction : Direction) : TradePlan :=
  match direction with
  | .CALL =>
    let entry := currentPrice
    let stop := currentPrice - expectedMove * (1/2)
    let target := currentPrice + expectedMove * 1
    let risk := entry - stop
    let reward := target - entry
    ⟨entry, stop, target, if risk > 0 then reward / risk else 0⟩
  | .PUT =>
    let entry := currentPrice
    let stop := currentPrice + expectedMove * (1/2)
    let target := currentPrice - expectedMove * 1
    let risk := stop - entry
    let reward := entry - target
    ⟨entry, stop, target, if risk > 0 then reward / risk else 0⟩

/-! ## Black-Scholes pre-market engine (src/server/math/blackscholes.ts)

The closed-form pricing and the expected move use exp, log and the square
root, which have no exact rational form; they are abstracted as function
parameters.  Everything the claims depend on (the NEUTRAL gate, the
confidence accumulation, the strike arithmetic) is translated exactly. -/

structure BlackScholesInput where
  spotPrice : ℚ
  strikePrice : ℚ
  timeToExpiry : ℚ
  riskFreeRate : ℚ
  volatility : ℚ
  optionType : Direction
deriving DecidableEq, Repr

structure BlackScholesOutput where
  theoreticalPrice : ℚ
  delta : ℚ
  gamma : ℚ
  theta : ℚ
  vega : ℚ
  rho : ℚ
deriving DecidableEq, Repr

structure PreMarketPrediction where
  ticker : String
  direction : Direction
  strike : ℚ
  confidence : ℚ
  theoreticalPrice : ℚ
  expectedMove : ℚ
deriving DecidableEq, Repr

/-- generatePreMarketPrediction (src/server/math/blackscholes.ts lines
508-581).  bs stands for calculateBlackScholes and em for
getExpectedMove; the reasoning strings are display only and are not
carried. -/
def generatePreMarketPrediction (bs : BlackScholesInput → BlackScholesOutput)
    (em : ℚ → ℚ → ℚ → ℚ) (ticker : String)
    (spotPrice volatility riskFreeRate : ℚ) (bias : Bias) :
    Option PreMarketPrediction :=
  let timeToExpiry : ℚ := 1/365
  let expectedMove := em spotPrice volatility timeToExpiry
  match bias with
  | .NEUTRAL => none
  | _ =>
    let direction : Direction := match bias with
      | .BULLISH => .CALL
      | _ => .PUT
    let strikeOffset := spotPrice * (5/1000)
    let strike : ℚ := match direction with
      | .CALL => (⌈(spotPrice + strikeOffset) / (1/2)⌉ : ℚ) * (1/2)
      | .PUT => (⌊(spotPrice - strikeOffset) / (1/2)⌋ : ℚ) * (1/2)
    let bsInput : BlackScholesInput :=
      { spotPrice := spotPrice
        strikePrice := strike
        timeToExpiry := timeToExpiry
        riskFreeRate := riskFreeRate
        volatility := volatility
        optionType := direction }
    let bsResult := bs bsInput
    let moneyness : ℚ := match direction with
      | .CALL => (spotPrice - strike) / spotPrice
      | .PUT => (strike - spotPrice) / spotPrice
    let conf0 : ℚ := 50
    let conf1 := if moneyness > -(2/100) ∧ moneyness < 0 then conf0 + 10 else conf0
    let conf2 := if volatility > 3/10 ∧ volatility < 5/10 then conf1 + 5 else conf1
    let conf3 := conf2 + 5
    some { ticker := ticker
           direction := direction
           strike := strike
           confidence := jsMin 100 (jsMax 0 conf3)
           theoreticalPrice := bsResult.theoreticalPrice
           expectedMove := expectedMove }

/-! ## Signal fuser (src/server/aurora/parallax.ts) -/

/-- ConfidenceWeights (src/server/aurora/parallax.ts lines 57-63). -/
structure ConfidenceWeights where
  tpo : ℚ
  rsi : ℚ
  ib : ℚ
  cvd : ℚ
  vwap : ℚ
deriving DecidableEq, Repr

/-- DEFAULT_WEIGHTS (src/server/aurora/parallax.ts lines 65-71). -/
def DEFAULT_WEIGHTS : ConfidenceWeights :=
  ⟨25/100, 20/100, 20/100, 15/100, 20/100⟩

/-- The projection of getWeightsFromPraxis (src/server/aurora/parallax.ts
lines 77-101): only the five component weights of the active genes reach
the fuser; minConfidence does not. -/
def weightsOfGenes (g : StrategyGenes) : ConfidenceWeights :=
  ⟨g.tpoWeight, g.rsiWeight, g.ibWeight, g.cvdWeight, g.vwapWeight⟩

def NonnegConfidenceWeights (w : ConfidenceWeights) : Prop :=
  0 ≤ w.tpo ∧ 0 ≤ w.rsi ∧ 0 ≤ w.ib ∧ 0 ≤ w.cvd ∧ 0 ≤ w.vwap

/-- The confidenceComponents record: a present entry is a score in [0,1],
an absent entry is skipped by the weighted sum. -/
structure Components where
  tpo : Option ℚ
  rsi : Option ℚ
  ib : Option ℚ
  cvd : Option ℚ
  vwap : Option ℚ
deriving DecidableEq, Repr

/-- calculateConfidence (src/server/aurora/parallax.ts lines 103-129).
The five sequential if-present blocks of the source are rendered as a fold
over the five (component, weight) pairs in source order. -/
def calculateConfidence (components : Components) (weights : ConfidenceWeights) : ℚ :=
  let pairs : List (Option ℚ × ℚ) :=
    [(components.tpo, weights.tpo), (components.rsi, weights.rsi),
     (components.ib, weights.ib), (components.cvd, weights.cvd),
     (components.vwap, weights.vwap)]
  let acc := pairs.foldl
    (fun (a : ℚ × ℚ) pair =>
      match pair.1 with
      | some c => (a.1 + c * pair.2, a.2 + pair.2)
      | none => a)
    (0, 0)
  if acc.2 > 0 then acc.1 / acc.2 * 100 else 50

/-- selectStrike (src/server/aurora/parallax.ts lines 131-140). -/
def selectStrike (currentPrice : ℚ) (direction : Direction) (tickSize : ℚ) : ℚ :=
  let offset : ℚ := match direction with | .CALL => 1 | .PUT => -1
  let otmAmount := currentPrice * (5/1000)
  let rawStrike := currentPrice + offset * otmAmount
  (jsRound (rawStrike / tickSize) : ℚ) * tickSize

/-- A prediction as produced by the engines (src/server/aurora/parallax.ts,
Prediction).  The reasoning blob is display only and is not carried; the
riskRewardRatio field is called riskReward. -/
structure Prediction where
  ticker : String
  category : String
  direction : Direction
  strike : ℚ
  entryPrice : Option ℚ
  confidence : ℚ
  session : MarketSession
  engine : Engine
  entryTrigger : Option ℚ
  stopLoss : Option ℚ
  takeProfit : Option ℚ
  riskReward : Option ℚ
deriving DecidableEq, Repr

/-- The confidence-component construction of generateTPOMITPrediction
(src/server/aurora/parallax.ts lines 163-188). -/
def fusedComponents (tpoSignal : TpoBias) (rsiSignal : RsiSignal)
    (ib : Option InitialBalance) (orderFlow : Option OrderFlowSnapshot)
    (vwap : Option ℚ) (currentPrice : ℚ) : Components :=
  { tpo := some (match tpoSignal with
      | .LONG => 7/10
      | .SHORT => 7/10
      | .NEUTRAL => 3/10)
    rsi := some (match rsiSignal with
      | .OVERSOLD => 8/10
      | .OVERBOUGHT => 8/10
      | .NEUTRAL => 5/10)
    ib := ib.map (fun ibv =>
      if currentPrice > ibv.ibHigh ∨ currentPrice < ibv.ibLow then 75/100 else 4/10)
    cvd := orderFlow.map (fun f => if f.cvdDivergence then 65/100 else 5/10)
    vwap := match orderFlow, vwap with
      | some _, some v =>
        let vwapDistance := jsAbs (currentPrice - v) / v
        some (if vwapDistance < 1/100 then 6/10
          else if vwapDistance < 2/100 then 5/10 else 4/10)
      | _, _ => none }

/-- The direction selection of generateTPOMITPrediction
(src/server/aurora/parallax.ts lines 194-201). -/
def fusedDirection (tpoSignal : TpoBias) (rsiSignal : RsiSignal) : Option Direction :=
  if tpoSignal = .LONG ∨ (rsiSignal = .OVERSOLD ∧ tpoSignal = .NEUTRAL) then
    some .CALL
  else if tpoSignal = .SHORT ∨ (rsiSignal = .OVERBOUGHT ∧ tpoSignal = .NEUTRAL) then
    some .PUT
  else none

/-- generateTPOMITPrediction (src/server/aurora/parallax.ts lines
142-239).  The awaited Praxis weight fetch becomes the weights argument
and the wall-clock session read becomes the session argument. -/
def generateTPOMITPrediction (ticker category : String)
    (weights : ConfidenceWeights) (candles : List Candle) (currentPrice : ℚ)
    (session : MarketSession) : Option Prediction :=
  if candles.length < 30 then none
  else
    (buildTPOProfile candles (1/4) (7/10)).bind (fun tpoProfile =>
      let technicals := computeTechnicalSnapshot candles
      let ib := calculateInitialBalance candles 60
      let orderFlow := computeOrderFlowSnapshot candles 0
      let tpoSignal := getTPOSignal currentPrice tpoProfile
      let rsiSignal := match technicals.rsi14 with
        | some r => getRSISignal r
        | none => RsiSignal.NEUTRAL
      let confidenceComponents :=
        fusedComponents tpoSignal.bias rsiSignal ib orderFlow technicals.vwap currentPrice
      let confidence := calculateConfidence confidenceComponents weights
      if confidence < 60 then none
      else
        (fusedDirection tpoSignal.bias rsiSignal).map (fun direction =>
          let strike := selectStrike currentPrice direction 1
          let atr := technicals.atr.getD 2
          let tradePlan := RiskCalculator.fromTPO tpoProfile currentPrice direction atr
          { ticker := ticker
            category := category
            direction := direction
            strike := strike
            entryPrice := some currentPrice
            confidence := confidence
            session := session
            engine := .TPO_MIT
            entryTrigger := some tradePlan.entry
            stopLoss := some tradePlan.stop
            takeProfit := some tradePlan.target
            riskReward := some tradePlan.riskReward }))

/-- generateBlackScholesPrediction (src/server/aurora/parallax.ts lines
241-283). -/
def generateBlackScholesPrediction (bs : BlackScholesInput → BlackScholesOutput)
    (em : ℚ → ℚ → ℚ → ℚ) (ticker category : String)
    (spotPrice volatility : ℚ) (bias : Bias) (session : MarketSession) :
    Option Prediction :=
  (generatePreMarketPrediction bs em ticker spotPrice volatility (5/100) bias).bind
    (fun preMarketPred =>
    if preMarketPred.confidence < 60 then none
    else
      let tradePlan := RiskCalculator.fromBlackScholes spotPrice
        preMarketPred.expectedMove preMarketPred.direction
      some { ticker := ticker
             category := category
             direction := preMarketPred.direction
             strike := preMarketPred.strike
             entryPrice := some preMarketPred.theoreticalPrice
             confidence := preMarketPred.confidence
             session := session
             engine := .BLACK_SCHOLES
             entryTrigger := some tradePlan.entry
             stopLoss := some tradePlan.stop
             takeProfit := some tradePlan.target
             riskReward := some tradePlan.riskReward })

/-- The breakout confidence boost of generateORBPrediction
(src/server/aurora/parallax.ts lines 312-320): Math.min(20,
breakoutStrength * 40), where a zero range makes the JavaScript strength
Infinity and the minimum 20. -/
def breakoutBoost (dist rangeSize : ℚ) : ℚ :=
  if rangeSize = 0 then 20 else jsMin 20 (dist / rangeSize * 40)

/-- generateORBPrediction (src/server/aurora/parallax.ts lines 285-353).
The luxon market-open and now readings become the marketOpen and now
arguments, in minutes. -/
def generateORBPrediction (ticker category : String) (candles : List Candle)
    (currentPrice : ℚ) (marketOpen now : ℤ) (session : MarketSession) :
    Option Prediction :=
  let orbEnd := marketOpen + 30
  if now < orbEnd then none
  else
    let orbCandles := candles.filter
      (fun c => marketOpen ≤ c.timestamp ∧ c.timestamp < orbEnd)
    if orbCandles.length < 5 then none
    else
      (calculateORB orbCandles).bind (fun orbLevels =>
        let dirConf : Option Direction × ℚ :=
          if currentPrice > orbLevels.high then
            (some .CALL, 55 + breakoutBoost (currentPrice - orbLevels.high) orbLevels.rangeSize)
          else if currentPrice < orbLevels.low then
            (some .PUT, 55 + breakoutBoost (orbLevels.low - currentPrice) orbLevels.rangeSize)
          else (none, 55)
        dirConf.1.bind (fun direction =>
          if dirConf.2 < 60 then none
          else
            let strike := selectStrike currentPrice direction 1
            let tradePlan := RiskCalculator.fromORB orbLevels direction
            some { ticker := ticker
                   category := category
                   direction := direction
                   strike := strike
                   entryPrice := some currentPrice
                   confidence := dirConf.2
                   session := session
                   engine := .ORB_MOMENTUM
                   entryTrigger := some tradePlan.entry
                   stopLoss := some tradePlan.stop
                   takeProfit := some tradePlan.target
                   riskReward := some tradePlan.riskReward }))

/-! ## Backtest replay scoring (src/unnamed/part_004, runHistoricalBacktest) -/

/-- The per-window confidence and direction of the backtest replay
(src/unnamed/part_004 lines 89-117): the same TPO and RSI signal
derivations as the live engine, then an additive confidence of 50 plus
20 times the tpo weight when the TPO bias is directional plus 20 times the
rsi weight when the RSI is at an extreme; none when the window has no TPO
profile. -/
def backtestWindowScore (window : List Candle) (genes : StrategyGenes) :
    Option (ℚ × Option Direction) :=
  window.getLast?.bind (fun lastCandle =>
    let currentPrice := lastCandle.close
    (buildTPOProfile window (1/4) (7/10)).map (fun tpoProfile =>
      let technicals := computeTechnicalSnapshot window
      let tpoSignal := getTPOSignal currentPrice tpoProfile
      let rsiSignal := match technicals.rsi14 with
        | some r => getRSISignal r
        | none => RsiSignal.NEUTRAL
      let step1 : ℚ × Option Direction := match tpoSignal.bias with
        | .LONG => (50 + 20 * genes.tpoWeight, some .CALL)
        | .SHORT => (50 + 20 * genes.tpoWeight, some .PUT)
        | .NEUTRAL => (50, none)
      let step2 : ℚ × Option Direction := match rsiSignal with
        | .OVERSOLD =>
          (step1.1 + 20 * genes.rsiWeight,
            match step1.2 with | none => some .CALL | some d => some d)
        | .OVERBOUGHT =>
          (step1.1 + 20 * genes.rsiWeight,
            match step1.2 with | none => some .PUT | some d => some d)
        | .NEUTRAL => step1
      step2))

/-- The direction accumulation of the backtest window
(src/unnamed/part_004 lines 99-115) as a function of the two signals. -/
def backtestDirection (tpoSignal : TpoBias) (rsiSignal : RsiSignal) : Option Direction :=
  let d1 : Option Direction := match tpoSignal with
    | .LONG => some .CALL
    | .SHORT => some .PUT
    | .NEUTRAL => none
  match rsiSignal with
  | .OVERSOLD => match d1 with | none => some .CALL | some d => some d
  | .OVERBOUGHT => match d1 with | none => some .PUT | some d => some d
  | .NEUTRAL => d1

/-! ## The scheduler, grader and expiry as a transition system
(src/server/aurora/daemon.ts, src/server/aurora/reconcile.ts)

The database is the shared state: the predictions table and the outcomes
table.  A scheduler tick, one grading pass over one ACTIVE row, and one
stale-expiry update are the three state transitions.  Market data, option
chains and the wall clock are exogenous inputs and appear as parameters of
the transitions. -/

/-- Stored prediction status.  The source reaches exactly ACTIVE (insert),
CLOSED (grader) and EXPIRED (expiry sweep). -/
inductive Status
  | ACTIVE
  | CLOSED
  | EXPIRED
deriving DecidableEq, Repr

/-- A row of the predictions table, with the columns the transitions
read: generatedAt is kept as a day ordinal. -/
structure StoredPrediction where
  id : ℕ
  ticker : String
  direction : Direction
  engine : Engine
  status : Status
  generatedDate : ℕ
  entryPrice : Option ℚ
  strike : ℚ
  entryTrigger : Option ℚ
  stopLoss : Option ℚ
  takeProfit : Option ℚ
deriving DecidableEq, Repr

/-- A row of the outcomes table (src/server/aurora/reconcile.ts lines
91-96); result is true for WIN. -/
structure OutcomeRec where
  predictionId : ℕ
  actualPnl : ℚ
  win : Bool
deriving DecidableEq, Repr

structure DB where
  preds : List StoredPrediction
  outcomes : List OutcomeRec
  nextId : ℕ
deriving DecidableEq, Repr

def DB.init : DB := ⟨[], [], 0⟩

/-- The candidate prediction of one tick of runPredictionCycle
(src/server/aurora/daemon.ts lines 119-143): the Black-Scholes engine
with bias hardcoded to NEUTRAL during pre-market, otherwise the TPO+MIT
engine on at least 30 candles with the ORB engine as the opening-range
fallback. -/
def cycleCandidate (bs : BlackScholesInput → BlackScholesOutput)
    (em : ℚ → ℚ → ℚ → ℚ) (isPreMarket isTrading : Bool)
    (session : MarketSession) (ticker category : String)
    (currentPrice : ℚ) (candles : List Candle) (weights : ConfidenceWeights)
    (marketOpen now : ℤ) : Option Prediction :=
  if isPreMarket then
    generateBlackScholesPrediction bs em ticker category currentPrice (25/100)
      .NEUTRAL session
  else if isTrading then
    if candles.length ≥ 30 then
      match generateTPOMITPrediction ticker category weights candles currentPrice session with
      | some p => some p
      | none =>
        if session = .OPENING_RANGE ∧ candles.length ≥ 30 then
          generateORBPrediction ticker category (candles.take 30) currentPrice
            marketOpen now session
        else none
    else none
  else none

/-- The duplicate-suppression check of runPredictionCycle
(src/server/aurora/daemon.ts lines 146-149): an ACTIVE prediction of the
same ticker with the same direction and engine. -/
def dupCheck (db : DB) (ticker : String) (pred : Prediction) : Bool :=
  (db.preds.filter (fun q => q.status = .ACTIVE ∧ q.ticker = ticker)).any
    (fun q => q.direction = pred.direction ∧ q.engine = pred.engine)

/-- Row insertion by storePrediction (src/server/aurora/parallax.ts lines
355-374) after the trade-plan overlay of the daemon (lines 152-209).  The
overlay values come from the fetched option chain; they are exogenous
inputs oEntryPrice / oEntry / oStop / oTarget of the transition and do not
affect status, engine or identity. -/
def tickInsert (db : DB) (ticker : String) (today : ℕ) (pred : Prediction)
    (oEntryPrice oEntry oStop oTarget : Option ℚ) : DB :=
  { preds := { id := db.nextId
               ticker := ticker
               direction := pred.direction
               engine := pred.engine
               status := .ACTIVE
               generatedDate := today
               entryPrice := oEntryPrice
               strike := pred.strike
               entryTrigger := oEntry
               stopLoss := oStop
               takeProfit := oTarget } :: db.preds
    outcomes := db.outcomes
    nextId := db.nextId + 1 }

/-- Set the status of the row with the given id
(updatePredictionStatus, src/server/aurora/parallax.ts lines 413-421). -/
def setStatus (preds : List StoredPrediction) (id : ℕ) (st : Status) :
    List StoredPrediction :=
  preds.map (fun q => if q.id = id then { q with status := st } else q)

/-- The outcome row that Reconcile.gradeOpenTrades writes for one ACTIVE
prediction (src/server/aurora/reconcile.ts lines 68-96), given the close
of the most recent candle. -/
def gradeOutcome (p : StoredPrediction) (close : ℚ) : OutcomeRec :=
  let entryPremium := p.entryTrigger.getD 0
  let stopPremium := p.stopLoss.getD 0
  let targetPremium := p.takeProfit.getD 0
  let currentPremium := gradeCurrentPremium p.direction entryPremium p.entryPrice p.strike close
  let pnl := currentPremium - entryPremium
  let isWin := gradeDecision currentPremium targetPremium stopPremium pnl
  ⟨p.id, pnl, isWin⟩

/-- One grading of one ACTIVE prediction by Reconcile.gradeOpenTrades
(src/server/aurora/reconcile.ts lines 42-111): write one outcome row and
close the prediction. -/
def gradeStep (db : DB) (p : StoredPrediction) (close : ℚ) : DB :=
  { preds := setStatus db.preds p.id .CLOSED
    outcomes := db.outcomes ++ [gradeOutcome p close]
    nextId := db.nextId }

/-- The transition relation of the running system: a tick that persists a
candidate (src/server/aurora/daemon.ts lines 145-217), one grader item
(src/server/aurora/reconcile.ts gradeOpenTrades), and one stale expiry
(reconcile expireStale / daemon expireOldPredictions).  Ticks that persist
nothing, grader items skipped for a missing premium or candle, and expiry
passes over current rows leave the state unchanged and need no
transition. -/
inductive Step (bs : BlackScholesInput → BlackScholesOutput)
    (em : ℚ → ℚ → ℚ → ℚ) : DB → DB → Prop
  | tick (db : DB) (isPreMarket isTrading : Bool) (session : MarketSession)
      (ticker category : String) (currentPrice : ℚ) (candles : List Candle)
      (weights : ConfidenceWeights) (marketOpen now : ℤ) (today : ℕ)
      (pred : Prediction) (oEntryPrice oEntry oStop oTarget : Option ℚ)
      (hgen : cycleCandidate bs em isPreMarket isTrading session ticker category
        currentPrice candles weights marketOpen now = some pred)
      (hconf : 60 ≤ pred.confidence)
      (hdup : dupCheck db ticker pred = false) :
      Step bs em db (tickInsert db ticker today pred oEntryPrice oEntry oStop oTarget)
  | grade (db : DB) (p : StoredPrediction) (close : ℚ)
      (hmem : p ∈ db.preds)
      (hact : p.status = .ACTIVE)
      (hprem : 0 < p.entryTrigger.getD 0) :
      Step bs em db (gradeStep db p close)
  | expire (db : DB) (p : StoredPrediction) (today : ℕ)
      (hmem : p ∈ db.preds)
      (hact : p.status = .ACTIVE)
      (hstale : p.generatedDate < today) :
      Step bs em db { preds := setStatus db.preds p.id .EXPIRED
                      outcomes := db.outcomes
                      nextId := db.nextId }

/-- States reachable from the empty database. -/
inductive Reachable (bs : BlackScholesInput → BlackScholesOutput)
    (em : ℚ → ℚ → ℚ → ℚ) : DB → Prop
  | init : Reachable bs em DB.init
  | step {db db2 : DB} : Reachable bs em db → Step bs em db db2 → Reachable bs em db2

/-- At most one ACTIVE prediction per (ticker, direction, engine). -/
def ActiveUnique (db : DB) : Prop :=
  ∀ p ∈ db.preds, ∀ q ∈ db.preds,
    p.status = .ACTIVE → q.status = .ACTIVE →
    p.ticker = q.ticker → p.direction = q.direction → p.engine = q.engine → p = q

/-- Outcome rows exist exactly for CLOSED predictions, one each. -/
def OutcomeCoupling (db : DB) : Prop :=
  (∀ p ∈ db.preds,
    db.outcomes.countP (fun o => o.predictionId = p.id)
      = if p.status = .CLOSED then 1 else 0) ∧
  (∀ o ∈ db.outcomes, ∃ p ∈ db.preds, o.predictionId = p.id ∧ p.status = .CLOSED)

/-- No stored prediction carries the Black-Scholes engine. -/
def NoBSEngine (db : DB) : Prop :=
  ∀ p ∈ db.preds, p.engine ≠ .BLACK_SCHOLES

/-- The inductive invariant: id bookkeeping plus the claimed invariants. -/
def Inv (db : DB) : Prop :=
  (∀ p ∈ db.preds, p.id < db.nextId) ∧
  db.preds.Pairwise (fun p q => p.id ≠ q.id) ∧
  ActiveUnique db ∧ OutcomeCoupling db ∧ NoBSEngine db

/-- An emitted prediction has confidence in bounds and over the fixed
60-point floor. -/
def ConfidenceSpec (result : Option Prediction) : Prop :=
  ∀ p, result = some p →
    0 ≤ p.confidence ∧ p.confidence ≤ 100 ∧ 60 ≤ p.confidence

/-- Present confidence components are scores in [0, 1]. -/
def BoundedComponents (c : Components) : Prop :=
  (∀ x, c.tpo = some x → 0 ≤ x ∧ x ≤ 1) ∧
  (∀ x, c.rsi = some x → 0 ≤ x ∧ x ≤ 1) ∧
  (∀ x, c.ib = some x → 0 ≤ x ∧ x ≤ 1) ∧
  (∀ x, c.cvd = some x → 0 ≤ x ∧ x ≤ 1) ∧
  (∀ x, c.vwap = some x → 0 ≤ x ∧ x ≤ 1)

/-! ## Concrete evaluation data

A thirty-candle one-minute window: twenty-nine flat candles at 100
followed by one candle closing at 101.  On it the TPO value area collapses
to 100 (price above VAH, bias SHORT), the RSI is 100 (OVERBOUGHT), the IB
holds price, the order flow shows no divergence and the price sits within
one percent of VWAP. -/

def flatCandles : ℕ → List Candle
  | 0 => []
  | n + 1 => ⟨29 - (n + 1 : ℕ), 100, 100, 100, 100, 1⟩ :: flatCandles n

def w30 : List Candle := flatCandles 29 ++ [⟨29, 100, 101, 100, 101, 1⟩]

/-- What the TPO+MIT engine produces on w30 at price 101 with the default
weights: confidence 61, a PUT at strike 100. -/
def demoPred : Prediction :=
  ⟨"SPY", "SPY_DAILY", .PUT, 100, some 101, 61, .MORNING, .TPO_MIT,
   some 101, some (1401/14), some 100, some 0⟩

/-- An active genome whose minConfidence is 75: claim C2 requires such a
row to suppress sub-75 predictions. -/
def genes70 : StrategyGenes := { DEFAULT_GENES with minConfidence := 70 }

/-- A genome concentrating the weights on the tpo and rsi components, for
comparing the backtest scoring against the live scoring. -/
def genesCX : StrategyGenes :=
  { tpoWeight := 1/2
    rsiWeight := 1/2
    ibWeight := 0
    cvdWeight := 0
    vwapWeight := 0
    minConfidence := 60
    orbBreakoutMultiplier := 1
    stopLossMultiplier := 1/2
    targetMultiplier := 2 }

/-- What the TPO+MIT engine produces on w30 at price 101 with the genesCX
weights: confidence 75. -/
def demoPredCX : Prediction :=
  ⟨"SPY", "SPY_DAILY", .PUT, 100, some 101, 75, .MORNING, .TPO_MIT,
   some 101, some (1401/14), some 100, some 0⟩

/-- A trivial stand-in for the abstracted Black-Scholes closed form, used
only to instantiate witnesses; the transitions proven about the system
hold for every such function. -/
def bs0 : BlackScholesInput → BlackScholesOutput := fun _ => ⟨0, 0, 0, 0, 0, 0⟩

def em0 : ℚ → ℚ → ℚ → ℚ := fun _ _ _ => 0

/-- The database after one tick that persists demoPred. -/
def demoDB : DB :=
  tickInsert DB.init "SPY" 0 demoPred (some (6/5)) (some (6/5)) (some (3/5)) (some (12/5))

/-- The row that the tick into demoDB stored. -/
def demoPredRow : StoredPrediction :=
  ⟨0, "SPY", .PUT, .TPO_MIT, .ACTIVE, 0, some (6/5), 100,
   some (6/5), some (3/5), some (12/5)⟩

/-- The database after the grader closes that row against a candle at
454. -/
def demoDB2 : DB := gradeStep demoDB demoPredRow 454

end Aurora

namespace Aurora

/-! ## Theorems for claims C1, C4, C8, C9, C10 -/

lemma fitness_fold_spec (outcomes : List JoinedOutcome) (w : ℕ) (t : ℚ) :
    outcomes.foldl
      (fun (acc : ℕ × ℚ) row =>
        let pnl := row.actualPnl.getD 0
        (if pnl > 0 then acc.1 + 1 else acc.1, acc.2 + pnl))
      (w, t)
    = (w + outcomes.countP (fun row => 0 < row.actualPnl.getD 0),
       t + (outcomes.map (fun row => row.actualPnl.getD 0)).sum) := by
  induction outcomes generalizing w t with
  | nil => simp
  | cons head tail ih =>
    simp only [List.foldl_cons, List.countP_cons, List.map_cons, List.sum_cons, ih]
    rw [Prod.mk.injEq]
    refine ⟨?_, by ring⟩
    by_cases h : 0 < head.actualPnl.getD 0
    · rw [if_pos h, if_pos (by simpa using h)]
      omega
    · rw [if_neg h, if_neg (by simpa using h)]
      omega

/-- Claim C4: the fitness of the genetic optimizer returns 0.5 on an empty
outcomes join and otherwise 0.7 times the win rate plus 0.3 when the
average PnL is positive; it does not depend on the candidate genes, so any
two gene vectors evaluated against the same outcomes receive the same
fitness. -/
theorem fitness_ignores_genes (outcomes : List JoinedOutcome)
    (genes1 genes2 : StrategyGenes) :
    calculateFitness genes1 outcomes = calculateFitness genes2 outcomes ∧
    calculateFitness genes1 outcomes =
      (if outcomes.length = 0 then 1/2
       else ((outcomes.countP (fun row => 0 < row.actualPnl.getD 0) : ℚ)
              / outcomes.length) * (7/10) +
         (if 0 < (outcomes.map (fun row => row.actualPnl.getD 0)).sum / outcomes.length
          then 3/10 else 0)) := by
  constructor
  · rfl
  · unfold calculateFitness
    rcases Nat.eq_zero_or_pos outcomes.length with h | h
    · simp [h]
    · have hne : outcomes.length ≠ 0 := Nat.pos_iff_ne_zero.mp h
      simp only [hne, if_false, fitness_fold_spec]
      norm_num

/-- Claim C1: the grader premium projection.  For CALL predictions the
code agrees with the claim formula for every input; for a PUT graded at
entry stock 450, entry premium 1.00 and candle close 454 the code yields
3.00 (the absolute delta makes the PUT premium rise with the stock) where
the claim formula yields 0.01. -/
theorem grader_premium_put_divergence :
    (∀ entryPremium entryStock close : ℚ,
      gradeCurrentPremium .CALL entryPremium (some entryStock) 0 close =
        claimCurrentPremium .CALL entryPremium entryStock close) ∧
    gradeCurrentPremium .PUT 1 (some 450) 450 454 = 3 ∧
    claimCurrentPremium .PUT 1 450 454 = 1/100 ∧
    gradeCurrentPremium .PUT 1 (some 450) 450 454 ≠
      claimCurrentPremium .PUT 1 450 454 := by
  have h1 : gradeCurrentPremium .PUT 1 (some 450) 450 454 = 3 := by
    norm_num [gradeCurrentPremium, jsAbs, jsMax]
  have h2 : claimCurrentPremium .PUT 1 450 454 = 1/100 := by
    norm_num [claimCurrentPremium, jsMax]
  refine ⟨?_, h1, h2, by rw [h1, h2]; norm_num⟩
  intro entryPremium entryStock close
  simp only [gradeCurrentPremium, claimCurrentPremium, Option.getD_some]
  norm_num [jsAbs]

/-- Claim C8 counterexample: the Risk Projector rounds the returned
premiums to cents, so at midNow = 1.201, delta = -0.5 and stop distance 1
the returned contract stop is 0.70, not the un-rounded
max(0.05, 1.201 - 0.5) = 0.701 the claim formula gives. -/
theorem risk_projector_rounding_counterexample :
    (OptionsRiskCalculator.calculate (1201/1000)
        ⟨450, 449, 452⟩ ⟨-(1/2), 0⟩).contractStop = 70/100 ∧
    claimContractStop (1201/1000) ⟨450, 449, 452⟩ ⟨-(1/2), 0⟩ = 701/1000 ∧
    (OptionsRiskCalculator.calculate (1201/1000)
        ⟨450, 449, 452⟩ ⟨-(1/2), 0⟩).contractStop ≠
      claimContractStop (1201/1000) ⟨450, 449, 452⟩ ⟨-(1/2), 0⟩ := by
  have h1 : (OptionsRiskCalculator.calculate (1201/1000)
      ⟨450, 449, 452⟩ ⟨-(1/2), 0⟩).contractStop = 70/100 := by
    norm_num [OptionsRiskCalculator.calculate, jsAbs, jsMax, round2, jsRound]
  have h2 : claimContractStop (1201/1000) ⟨450, 449, 452⟩ ⟨-(1/2), 0⟩ = 701/1000 := by
    norm_num [claimContractStop, jsAbs, jsMax]
  exact ⟨h1, h2, by rw [h1, h2]; norm_num⟩

/-- Claim C8 as amended: the Risk Projector returns the claim formulas
rounded to the nearest cent (entry, stop and target), the risk-reward
ratio is computed from the clamped un-rounded stop and target and then
rounded, and the concrete example of the claim holds: delta = -0.5,
midNow = 1.20, stop distance 1 and target distance 2 yield entry 1.20,
stop 0.70, target 2.20 and riskReward 2.0. -/
theorem risk_projector_spec :
    (∀ (midNow : ℚ) (levels : StockLevels) (greeks : Greeks),
      (OptionsRiskCalculator.calculate midNow levels greeks).contractEntry
          = round2 midNow ∧
      (OptionsRiskCalculator.calculate midNow levels greeks).contractStop
          = round2 (claimContractStop midNow levels greeks) ∧
      (OptionsRiskCalculator.calculate midNow levels greeks).contractTarget
          = round2 (claimContractTarget midNow levels greeks) ∧
      (OptionsRiskCalculator.calculate midNow levels greeks).riskReward
          = (if midNow - claimContractStop midNow levels greeks > 0
             then round2 ((claimContractTarget midNow levels greeks - midNow) /
                    (midNow - claimContractStop midNow levels greeks))
             else 0)) ∧
    OptionsRiskCalculator.calculate (12/10) ⟨450, 449, 452⟩ ⟨-(1/2), 0⟩
      = ⟨12/10, 7/10, 22/10, 450, 2⟩ := by
  constructor
  · intro midNow levels greeks
    refine ⟨rfl, rfl, rfl, rfl⟩
  · have : OptionsRiskCalculator.calculate (12/10) ⟨450, 449, 452⟩ ⟨-(1/2), 0⟩
        = ⟨round2 (12/10), round2 (7/10), round2 (22/10), 450, round2 2⟩ := by
      norm_num [OptionsRiskCalculator.calculate, jsAbs, jsMax]
    rw [this]
    norm_num [round2, jsRound]

/-- Claim C10: the session function on a non-weekend, non-holiday date is
the stated piecewise function of the minute of day and the close (960
regular, 780 half-day). -/
theorem session_piecewise (weekday : ℕ) (dateStr : String) (hour minute : ℕ)
    (holidays halfDays : List String) (m C : ℕ)
    (hwd : weekday ≤ 5) (hhol : ¬ holidays.contains dateStr = true)
    (hm : m = hour * 60 + minute)
    (hC : C = if halfDays.contains dateStr then 780 else 960) :
    (m < 240 ∨ C ≤ m →
      getSession weekday dateStr hour minute holidays halfDays = .CLOSED) ∧
    (240 ≤ m ∧ m < 570 →
      getSession weekday dateStr hour minute holidays halfDays = .PRE_MARKET) ∧
    (570 ≤ m ∧ m < min 600 C →
      getSession weekday dateStr hour minute holidays halfDays = .OPENING_RANGE) ∧
    (600 ≤ m ∧ m < min 720 C →
      getSession weekday dateStr hour minute holidays halfDays = .MORNING) ∧
    (720 ≤ m ∧ m < min 780 C →
      getSession weekday dateStr hour minute holidays halfDays = .AFTERNOON) ∧
    (780 ≤ m ∧ m < C →
      getSession weekday dateStr hour minute holidays halfDays = .POWER_HOUR) := by
  subst hm
  have hwd2 : ¬ weekday > 5 := by omega
  have hgs : getSession weekday dateStr hour minute holidays halfDays
      = sessionOfMinutes (hour * 60 + minute) C := by
    unfold getSession
    rw [if_neg hwd2, if_neg hhol, ← hC]
  rw [hgs]
  have hC2 : C = 780 ∨ C = 960 := by
    rcases Bool.eq_false_or_eq_true (halfDays.contains dateStr) with hhd | hhd <;>
      rw [hhd] at hC <;> simp at hC <;> omega
  refine ⟨?_, ?_, ?_, ?_, ?_, ?_⟩ <;> intro h1 <;> unfold sessionOfMinutes <;>
    split_ifs <;> first | rfl | omega

/-- Witness for claim C10: on a half-day Friday at 13:30 local time the
session is CLOSED, as the claim says. -/
theorem session_piecewise_witness :
    (5 ≤ 5 ∧ ¬ ([] : List String).contains "2026-11-27" = true ∧
      810 = 13 * 60 + 30 ∧
      780 = if (["2026-11-27"] : List String).contains "2026-11-27" then 780 else 960) ∧
    (getSession 5 "2026-11-27" 13 30 [] ["2026-11-27"] = .CLOSED) := by
  refine ⟨⟨le_refl 5, by decide, by decide, by decide⟩, ?_⟩
  have h := session_piecewise 5 "2026-11-27" 13 30 [] ["2026-11-27"] 810 780
    (le_refl 5) (by decide) (by decide) (by decide)
  exact h.1 (by right; decide)

lemma normalizeWeights_nonneg_sum (g : StrategyGenes) (hg : NonnegWeights g) :
    NonnegWeights (normalizeWeights g) ∧ weightSum5 (normalizeWeights g) = 1 := by
  obtain ⟨h1, h2, h3, h4, h5⟩ := hg
  unfold normalizeWeights
  by_cases htot : g.tpoWeight + g.rsiWeight + g.ibWeight + g.cvdWeight + g.vwapWeight = 0
  · simp only [htot, if_true]
    exact ⟨by norm_num [NonnegWeights, DEFAULT_GENES],
      by norm_num [weightSum5, DEFAULT_GENES]⟩
  · simp only [htot, if_false]
    have hpos : 0 < g.tpoWeight + g.rsiWeight + g.ibWeight + g.cvdWeight + g.vwapWeight := by
      rcases lt_or_eq_of_le (by positivity :
        (0:ℚ) ≤ g.tpoWeight + g.rsiWeight + g.ibWeight + g.cvdWeight + g.vwapWeight) with h | h
      · exact h
      · exact absurd h.symm htot
    constructor
    · exact ⟨div_nonneg h1 hpos.le, div_nonneg h2 hpos.le, div_nonneg h3 hpos.le,
        div_nonneg h4 hpos.le, div_nonneg h5 hpos.le⟩
    · show g.tpoWeight / _ + g.rsiWeight / _ + g.ibWeight / _ + g.cvdWeight / _ +
        g.vwapWeight / _ = 1
      field_simp

lemma clamp_nonneg (v lo hi : ℚ) (hlo : 0 ≤ lo) : 0 ≤ clamp v lo hi := by
  unfold clamp
  rw [jsMax_eq]
  exact le_max_of_le_left hlo

/-- Claim C9: for genomes whose five component weights are nonnegative,
both mutate (for any draws) and crossover (for any picks) return a genome
whose five component weights are nonnegative and sum to 1 within 1e-9,
because both renormalize. -/
theorem mutate_crossover_renormalize (g1 g2 : StrategyGenes)
    (dm : MutationDraws) (dc : CrossoverDraws)
    (hg1 : NonnegWeights g1) (hg2 : NonnegWeights g2) :
    (NonnegWeights (mutate g1 dm) ∧
      |weightSum5 (mutate g1 dm) - 1| ≤ 1/1000000000) ∧
    (NonnegWeights (crossover g1 g2 dc) ∧
      |weightSum5 (crossover g1 g2 dc) - 1| ≤ 1/1000000000) := by
  obtain ⟨a1, a2, a3, a4, a5⟩ := hg1
  obtain ⟨b1, b2, b3, b4, b5⟩ := hg2
  constructor
  · have hpre : NonnegWeights
        { tpoWeight := if dm.fireTpo then
            clamp (g1.tpoWeight + dm.noiseTpo) (5/100) (5/10) else g1.tpoWeight
          rsiWeight := if dm.fireRsi then
            clamp (g1.rsiWeight + dm.noiseRsi) (5/100) (4/10) else g1.rsiWeight
          ibWeight := if dm.fireIb then
            clamp (g1.ibWeight + dm.noiseIb) (5/100) (4/10) else g1.ibWeight
          cvdWeight := if dm.fireCvd then
            clamp (g1.cvdWeight + dm.noiseCvd) (5/100) (3/10) else g1.cvdWeight
          vwapWeight := if dm.fireVwap then
            clamp (g1.vwapWeight + dm.noiseVwap) (5/100) (4/10) else g1.vwapWeight
          minConfidence := if dm.fireMinConf then
            clamp (g1.minConfidence + dm.noiseMinConf) 50 80 else g1.minConfidence
          orbBreakoutMultiplier := if dm.fireOrb then
            clamp (g1.orbBreakoutMultiplier + dm.noiseOrb) (3/10) 3
            else g1.orbBreakoutMultiplier
          stopLossMultiplier := if dm.fireStop then
            clamp (g1.stopLossMultiplier + dm.noiseStop) (2/10) (8/10)
            else g1.stopLossMultiplier
          targetMultiplier := if dm.fireTarget then
            clamp (g1.targetMultiplier + dm.noiseTarget) (12/10) 4
            else g1.targetMultiplier } := by
      refine ⟨?_, ?_, ?_, ?_, ?_⟩ <;> dsimp only <;> split <;>
        first
        | assumption
        | exact clamp_nonneg _ _ _ (by norm_num)
    have h := normalizeWeights_nonneg_sum _ hpre
    refine ⟨h.1, ?_⟩
    have h2 : weightSum5 (mutate g1 dm) = 1 := h.2
    rw [h2]
    norm_num
  · have hpre : NonnegWeights
        { tpoWeight := if dc.pickTpo then g1.tpoWeight else g2.tpoWeight
          rsiWeight := if dc.pickRsi then g1.rsiWeight else g2.rsiWeight
          ibWeight := if dc.pickIb then g1.ibWeight else g2.ibWeight
          cvdWeight := if dc.pickCvd then g1.cvdWeight else g2.cvdWeight
          vwapWeight := if dc.pickVwap then g1.vwapWeight else g2.vwapWeight
          minConfidence := if dc.pickMinConf then g1.minConfidence else g2.minConfidence
          orbBreakoutMultiplier :=
            if dc.pickOrb then g1.orbBreakoutMultiplier else g2.orbBreakoutMultiplier
          stopLossMultiplier :=
            if dc.pickStop then g1.stopLossMultiplier else g2.stopLossMultiplier
          targetMultiplier :=
            if dc.pickTarget then g1.targetMultiplier else g2.targetMultiplier } := by
      refine ⟨?_, ?_, ?_, ?_, ?_⟩ <;> dsimp only <;> split <;> assumption
    have h := normalizeWeights_nonneg_sum _ hpre
    refine ⟨h.1, ?_⟩
    have h2 : weightSum5 (crossover g1 g2 dc) = 1 := h.2
    rw [h2]
    norm_num

/-- Witness for claim C9: the renormalization theorem applied to the
default genome with all mutations firing with noise 1/8 and a crossover
picking parent1 everywhere. -/
theorem mutate_crossover_renormalize_witness :
    (NonnegWeights DEFAULT_GENES ∧ NonnegWeights DEFAULT_GENES) ∧
    ((NonnegWeights (mutate DEFAULT_GENES
        ⟨true, 1/8, true, 1/8, true, 1/8, true, 1/8, true, 1/8, true, 1/8,
         true, 1/8, true, 1/8, true, 1/8⟩) ∧
      |weightSum5 (mutate DEFAULT_GENES
        ⟨true, 1/8, true, 1/8, true, 1/8, true, 1/8, true, 1/8, true, 1/8,
         true, 1/8, true, 1/8, true, 1/8⟩) - 1| ≤ 1/1000000000) ∧
     (NonnegWeights (crossover DEFAULT_GENES DEFAULT_GENES
        ⟨true, true, true, true, true, true, true, true, true⟩) ∧
      |weightSum5 (crossover DEFAULT_GENES DEFAULT_GENES
        ⟨true, true, true, true, true, true, true, true, true⟩) - 1| ≤ 1/1000000000)) :=
  ⟨⟨by norm_num [NonnegWeights, DEFAULT_GENES], by norm_num [NonnegWeights, DEFAULT_GENES]⟩,
    mutate_crossover_renormalize DEFAULT_GENES DEFAULT_GENES
      ⟨true, 1/8, true, 1/8, true, 1/8, true, 1/8, true, 1/8, true, 1/8,
       true, 1/8, true, 1/8, true, 1/8⟩
      ⟨true, true, true, true, true, true, true, true, true⟩
      (by norm_num [NonnegWeights, DEFAULT_GENES])
      (by norm_num [NonnegWeights, DEFAULT_GENES])⟩

/-! ## Theorems for claims C2 and C3 -/

lemma confidence_fold_bounds (pairs : List (Option ℚ × ℚ))
    (hc : ∀ pair ∈ pairs, ∀ c, pair.1 = some c → 0 ≤ c ∧ c ≤ 1)
    (hw : ∀ pair ∈ pairs, 0 ≤ pair.2) :
    ∀ t s : ℚ, 0 ≤ t → t ≤ s →
      0 ≤ (pairs.foldl
        (fun (a : ℚ × ℚ) pair =>
          match pair.1 with
          | some c => (a.1 + c * pair.2, a.2 + pair.2)
          | none => a) (t, s)).1 ∧
      (pairs.foldl
        (fun (a : ℚ × ℚ) pair =>
          match pair.1 with
          | some c => (a.1 + c * pair.2, a.2 + pair.2)
          | none => a) (t, s)).1 ≤
      (pairs.foldl
        (fun (a : ℚ × ℚ) pair =>
          match pair.1 with
          | some c => (a.1 + c * pair.2, a.2 + pair.2)
          | none => a) (t, s)).2 := by
  induction pairs with
  | nil => intro t s h0 hts; exact ⟨h0, hts⟩
  | cons head tail ih =>
    intro t s h0 hts
    have hwh := hw head (List.mem_cons_self _ _)
    have ihtail := ih
      (fun pair hp => hc pair (List.mem_cons_of_mem _ hp))
      (fun pair hp => hw pair (List.mem_cons_of_mem _ hp))
    cases hh : head.1 with
    | none =>
      simp only [List.foldl_cons, hh]
      exact ihtail t s h0 hts
    | some c =>
      have hcb := hc head (List.mem_cons_self _ _) c hh
      simp only [List.foldl_cons, hh]
      refine ihtail (t + c * head.2) (s + head.2) ?_ ?_
      · have : 0 ≤ c * head.2 := mul_nonneg hcb.1 hwh
        linarith
      · have : c * head.2 ≤ head.2 := mul_le_of_le_one_left hwh hcb.2
        linarith

lemma calculateConfidence_bounds (components : Components) (weights : ConfidenceWeights)
    (hw : NonnegConfidenceWeights weights) (hc : BoundedComponents components) :
    0 ≤ calculateConfidence components weights ∧
      calculateConfidence components weights ≤ 100 := by
  obtain ⟨w1, w2, w3, w4, w5⟩ := hw
  obtain ⟨c1, c2, c3, c4, c5⟩ := hc
  have hfold := confidence_fold_bounds
    [(components.tpo, weights.tpo), (components.rsi, weights.rsi),
     (components.ib, weights.ib), (components.cvd, weights.cvd),
     (components.vwap, weights.vwap)]
    (by
      intro pair hp c hpc
      simp only [List.mem_cons, List.not_mem_nil, or_false] at hp
      rcases hp with rfl | rfl | rfl | rfl | rfl
      · exact c1 c hpc
      · exact c2 c hpc
      · exact c3 c hpc
      · exact c4 c hpc
      · exact c5 c hpc)
    (by
      intro pair hp
      simp only [List.mem_cons, List.not_mem_nil, or_false] at hp
      rcases hp with rfl | rfl | rfl | rfl | rfl
      · exact w1
      · exact w2
      · exact w3
      · exact w4
      · exact w5)
    0 0 le_rfl le_rfl
  unfold calculateConfidence
  rcases hfold with ⟨hnn, hle⟩
  by_cases hpos :
      (([(components.tpo, weights.tpo), (components.rsi, weights.rsi),
        (components.ib, weights.ib), (components.cvd, weights.cvd),
        (components.vwap, weights.vwap)]).foldl
        (fun (a : ℚ × ℚ) pair =>
          match pair.1 with
          | some c => (a.1 + c * pair.2, a.2 + pair.2)
          | none => a) (0, 0)).2 > 0
  · rw [if_pos hpos]
    constructor
    · have := div_nonneg hnn (le_of_lt hpos)
      linarith
    · have hd1 := (div_le_one hpos).mpr hle
      linarith
  · rw [if_neg hpos]
    norm_num

lemma fusedComponents_bounded (tb : TpoBias) (rs : RsiSignal)
    (ib : Option InitialBalance) (orderFlow : Option OrderFlowSnapshot)
    (vwap : Option ℚ) (price : ℚ) :
    BoundedComponents (fusedComponents tb rs ib orderFlow vwap price) := by
  refine ⟨?_, ?_, ?_, ?_, ?_⟩ <;> intro x hx
  · cases tb <;> simp only [fusedComponents, Option.some.injEq] at hx <;>
      rw [← hx] <;> norm_num
  · cases rs <;> simp only [fusedComponents, Option.some.injEq] at hx <;>
      rw [← hx] <;> norm_num
  · cases ib with
    | none => simp [fusedComponents] at hx
    | some v =>
      simp only [fusedComponents, Option.map_some', Option.some.injEq] at hx
      rw [← hx]
      split <;> norm_num
  · cases orderFlow with
    | none => simp [fusedComponents] at hx
    | some f =>
      simp only [fusedComponents, Option.map_some', Option.some.injEq] at hx
      rw [← hx]
      split <;> norm_num
  · cases orderFlow with
    | none => simp [fusedComponents] at hx
    | some f =>
      cases vwap with
      | none => simp [fusedComponents] at hx
      | some v =>
        simp only [fusedComponents, Option.some.injEq] at hx
        rw [← hx]
        split
        · norm_num
        · split <;> norm_num

lemma tpomit_confidence_spec (ticker category : String)
    (weights : ConfidenceWeights) (candles : List Candle) (currentPrice : ℚ)
    (session : MarketSession) (hw : NonnegConfidenceWeights weights) :
    ConfidenceSpec
      (generateTPOMITPrediction ticker category weights candles currentPrice session) := by
  intro p hp
  unfold generateTPOMITPrediction at hp
  by_cases hlen : candles.length < 30
  · rw [if_pos hlen] at hp
    exact absurd hp (by simp)
  · rw [if_neg hlen] at hp
    cases hbp : buildTPOProfile candles (1/4) (7/10) with
    | none => rw [hbp] at hp; exact absurd hp (by simp)
    | some tpoProfile =>
      rw [hbp] at hp
      simp only [Option.some_bind] at hp
      by_cases h60 : calculateConfidence
          (fusedComponents (getTPOSignal currentPrice tpoProfile).bias
            (match (computeTechnicalSnapshot candles).rsi14 with
             | some r => getRSISignal r
             | none => RsiSignal.NEUTRAL)
            (calculateInitialBalance candles 60)
            (computeOrderFlowSnapshot candles 0)
            (computeTechnicalSnapshot candles).vwap currentPrice) weights < 60
      · rw [if_pos h60] at hp
        exact absurd hp (by simp)
      · rw [if_neg h60] at hp
        cases hfd : fusedDirection (getTPOSignal currentPrice tpoProfile).bias
            (match (computeTechnicalSnapshot candles).rsi14 with
             | some r => getRSISignal r
             | none => RsiSignal.NEUTRAL) with
        | none => rw [hfd] at hp; exact absurd hp (by simp)
        | some direction =>
          rw [hfd] at hp
          simp only [Option.map_some'] at hp
          have hpe := Option.some.inj hp
          subst hpe
          have hb := calculateConfidence_bounds
            (fusedComponents (getTPOSignal currentPrice tpoProfile).bias
              (match (computeTechnicalSnapshot candles).rsi14 with
               | some r => getRSISignal r
               | none => RsiSignal.NEUTRAL)
              (calculateInitialBalance candles 60)
              (computeOrderFlowSnapshot candles 0)
              (computeTechnicalSnapshot candles).vwap currentPrice) weights hw
            (fusedComponents_bounded _ _ _ _ _ _)
          exact ⟨hb.1, hb.2, not_lt.mp h60⟩

lemma breakoutBoost_le (dist rangeSize : ℚ) : breakoutBoost dist rangeSize ≤ 20 := by
  unfold breakoutBoost
  split
  · exact le_rfl
  · rw [jsMin_eq]
    exact min_le_left _ _

lemma orb_confidence_spec (ticker category : String) (candles : List Candle)
    (currentPrice : ℚ) (marketOpen now : ℤ) (session : MarketSession) :
    ConfidenceSpec
      (generateORBPrediction ticker category candles currentPrice marketOpen now session) := by
  intro p hp
  unfold generateORBPrediction at hp
  by_cases htime : now < marketOpen + 30
  · rw [if_pos htime] at hp
    exact absurd hp (by simp)
  · rw [if_neg htime] at hp
    by_cases hcnt : (candles.filter
        (fun c => marketOpen ≤ c.timestamp ∧ c.timestamp < marketOpen + 30)).length < 5
    · rw [if_pos hcnt] at hp
      exact absurd hp (by simp)
    · rw [if_neg hcnt] at hp
      cases horb : calculateORB (candles.filter
          (fun c => marketOpen ≤ c.timestamp ∧ c.timestamp < marketOpen + 30)) with
      | none => rw [horb] at hp; exact absurd hp (by simp)
      | some orbLevels =>
        rw [horb] at hp
        simp only [Option.some_bind] at hp
        by_cases h1 : currentPrice > orbLevels.high
        · rw [if_pos h1] at hp
          simp only [Option.some_bind] at hp
          by_cases h60 : 55 + breakoutBoost (currentPrice - orbLevels.high)
              orbLevels.rangeSize < 60
          · rw [if_pos h60] at hp
            exact absurd hp (by simp)
          · rw [if_neg h60] at hp
            have hpe := Option.some.inj hp
            subst hpe
            have hbb := breakoutBoost_le (currentPrice - orbLevels.high) orbLevels.rangeSize
            have h60b := not_lt.mp h60
            refine ⟨by show (0:ℚ) ≤ 55 + breakoutBoost _ _; linarith, by
              show 55 + breakoutBoost _ _ ≤ (100:ℚ); linarith, h60b⟩
        · rw [if_neg h1] at hp
          by_cases h2 : currentPrice < orbLevels.low
          · rw [if_pos h2] at hp
            simp only [Option.some_bind] at hp
            by_cases h60 : 55 + breakoutBoost (orbLevels.low - currentPrice)
                orbLevels.rangeSize < 60
            · rw [if_pos h60] at hp
              exact absurd hp (by simp)
            · rw [if_neg h60] at hp
              have hpe := Option.some.inj hp
              subst hpe
              have hbb := breakoutBoost_le (orbLevels.low - currentPrice) orbLevels.rangeSize
              have h60b := not_lt.mp h60
              refine ⟨by show (0:ℚ) ≤ 55 + breakoutBoost _ _; linarith, by
                show 55 + breakoutBoost _ _ ≤ (100:ℚ); linarith, h60b⟩
          · rw [if_neg h2] at hp
            exact absurd hp (by simp)

lemma preMarket_confidence_bounds (bs : BlackScholesInput → BlackScholesOutput)
    (em : ℚ → ℚ → ℚ → ℚ) (ticker : String) (spot vol rfr : ℚ) (bias : Bias)
    (q : PreMarketPrediction)
    (h : generatePreMarketPrediction bs em ticker spot vol rfr bias = some q) :
    0 ≤ q.confidence ∧ q.confidence ≤ 100 := by
  unfold generatePreMarketPrediction at h
  cases bias with
  | NEUTRAL => exact absurd h (by simp)
  | BULLISH =>
    have hq := Option.some.inj h
    subst hq
    constructor
    · show (0:ℚ) ≤ jsMin 100 (jsMax 0 _)
      rw [jsMin_eq, jsMax_eq]
      exact le_min (by norm_num) (le_max_left 0 _)
    · show jsMin 100 (jsMax 0 _) ≤ (100:ℚ)
      rw [jsMin_eq]
      exact min_le_left _ _
  | BEARISH =>
    have hq := Option.some.inj h
    subst hq
    constructor
    · show (0:ℚ) ≤ jsMin 100 (jsMax 0 _)
      rw [jsMin_eq, jsMax_eq]
      exact le_min (by norm_num) (le_max_left 0 _)
    · show jsMin 100 (jsMax 0 _) ≤ (100:ℚ)
      rw [jsMin_eq]
      exact min_le_left _ _

lemma bs_confidence_spec (bs : BlackScholesInput → BlackScholesOutput)
    (em : ℚ → ℚ → ℚ → ℚ) (ticker category : String) (spot vol : ℚ)
    (bias : Bias) (session : MarketSession) :
    ConfidenceSpec
      (generateBlackScholesPrediction bs em ticker category spot vol bias session) := by
  intro p hp
  unfold generateBlackScholesPrediction at hp
  cases hq : generatePreMarketPrediction bs em ticker spot vol (5/100) bias with
  | none => rw [hq] at hp; exact absurd hp (by simp)
  | some q =>
    rw [hq] at hp
    simp only [Option.some_bind] at hp
    by_cases h60 : q.confidence < 60
    · rw [if_pos h60] at hp
      exact absurd hp (by simp)
    · rw [if_neg h60] at hp
      have hpe := Option.some.inj hp
      subst hpe
      have hb := preMarket_confidence_bounds bs em ticker spot vol (5/100) bias q hq
      exact ⟨hb.1, hb.2, not_lt.mp h60⟩

/-- Claim C2 as amended: every engine emits only predictions with
confidence in [0, 100] (for component weights that are nonnegative, as
the data model guarantees) and at least 60.  The floor is the constant 60
of the engines, not the active row minConfidence: the engines never read
minConfidence, as the counterexample shows. -/
theorem engines_confidence_spec (bs : BlackScholesInput → BlackScholesOutput)
    (em : ℚ → ℚ → ℚ → ℚ) (ticker category : String)
    (weights : ConfidenceWeights) (candles : List Candle) (currentPrice : ℚ)
    (marketOpen now : ℤ) (spotPrice volatility : ℚ) (bias : Bias)
    (session : MarketSession) (hw : NonnegConfidenceWeights weights) :
    ConfidenceSpec
      (generateTPOMITPrediction ticker category weights candles currentPrice session) ∧
    ConfidenceSpec
      (generateORBPrediction ticker category candles currentPrice marketOpen now session) ∧
    ConfidenceSpec
      (generateBlackScholesPrediction bs em ticker category spotPrice volatility
        bias session) :=
  ⟨tpomit_confidence_spec ticker category weights candles currentPrice session hw,
   orb_confidence_spec ticker category candles currentPrice marketOpen now session,
   bs_confidence_spec bs em ticker category spotPrice volatility bias session⟩

/-- Witness for claim C2: the bounds at the default weights on the
concrete thirty-candle window. -/
theorem engines_confidence_spec_witness :
    NonnegConfidenceWeights DEFAULT_WEIGHTS ∧
    (ConfidenceSpec
      (generateTPOMITPrediction "SPY" "SPY_DAILY" DEFAULT_WEIGHTS w30 101 .MORNING) ∧
    ConfidenceSpec
      (generateORBPrediction "SPY" "SPY_DAILY" w30 101 0 30 .MORNING) ∧
    ConfidenceSpec
      (generateBlackScholesPrediction bs0 em0 "SPY" "SPY_DAILY" 100 (25/100)
        .NEUTRAL .MORNING)) :=
  ⟨by norm_num [NonnegConfidenceWeights, DEFAULT_WEIGHTS],
   engines_confidence_spec bs0 em0 "SPY" "SPY_DAILY" DEFAULT_WEIGHTS w30 101 0 30
     100 (25/100) .NEUTRAL .MORNING
     (by norm_num [NonnegConfidenceWeights, DEFAULT_WEIGHTS])⟩

set_option maxHeartbeats 4000000 in
set_option maxRecDepth 4000 in
lemma demo_tpomit_eval :
    generateTPOMITPrediction "SPY" "SPY_DAILY" DEFAULT_WEIGHTS w30 101 .MORNING
      = some demoPred := by
  norm_num +decide [w30, flatCandles, generateTPOMITPrediction, buildTPOProfile,
    addCandleVolume, roundToTick, jsRound, tickPrices, tickWalk, addVolume, lookupVolume,
    sortAsc, insertSorted, indexOfQ, vaLoop, listMax, listMin, jsMax, jsMin, jsAbs,
    computeTechnicalSnapshot, calculateRSI, calculateSMA, calculateVWAP, calculateATR,
    calculateInitialBalance, classifyOpeningType, touchesLow, touchesHigh, gapScan,
    computeOrderFlowSnapshot, calculateDelta, cumulativeDeltaLast, calculateAnchoredVWAP,
    detectCVDDivergence, getTPOSignal, getRSISignal, fusedComponents, fusedDirection,
    calculateConfidence, selectStrike, RiskCalculator.fromTPO, DEFAULT_WEIGHTS, demoPred]

set_option maxHeartbeats 4000000 in
set_option maxRecDepth 4000 in
/-- Claim C2 counterexample: with an active genome whose minConfidence is
70, the TPO+MIT engine still emits a prediction of confidence 61 on the
concrete window: the engines compare against the constant 60 and never
read the active minConfidence. -/
theorem tpomit_ignores_minConfidence :
    weightsOfGenes genes70 = DEFAULT_WEIGHTS ∧
    genes70.minConfidence = 70 ∧
    generateTPOMITPrediction "SPY" "SPY_DAILY" (weightsOfGenes genes70) w30 101 .MORNING
      = some demoPred ∧
    demoPred.confidence = 61 ∧
    demoPred.confidence < genes70.minConfidence := by
  refine ⟨rfl, rfl, ?_, rfl, by norm_num [demoPred, genes70, DEFAULT_GENES]⟩
  exact demo_tpomit_eval

set_option maxHeartbeats 8000000 in
set_option maxRecDepth 4000 in
/-- Claim C3 counterexample: on the same thirty-candle window with the
same weight vector (half tpo, half rsi), the backtest replay scores
confidence 70 while the live TPO+MIT scoring produces 75; the two
confidence computations are not equivalent. -/
theorem backtest_live_scoring_mismatch :
    backtestWindowScore w30 genesCX = some (70, some .PUT) ∧
    generateTPOMITPrediction "SPY" "SPY_DAILY" (weightsOfGenes genesCX) w30 101 .MORNING
      = some demoPredCX ∧
    demoPredCX.confidence = 75 ∧ demoPredCX.direction = .PUT ∧ (70 : ℚ) ≠ 75 := by
  refine ⟨?_, ?_, rfl, rfl, by norm_num⟩
  · norm_num +decide [w30, flatCandles, backtestWindowScore, buildTPOProfile,
      addCandleVolume, roundToTick, jsRound, tickPrices, tickWalk, addVolume, lookupVolume,
      sortAsc, insertSorted, indexOfQ, vaLoop, listMax, listMin, jsMax, jsMin, jsAbs,
      computeTechnicalSnapshot, calculateRSI, calculateSMA, calculateVWAP, calculateATR,
      getTPOSignal, getRSISignal, genesCX]
  · norm_num +decide [w30, flatCandles, generateTPOMITPrediction, buildTPOProfile,
      addCandleVolume, roundToTick, jsRound, tickPrices, tickWalk, addVolume, lookupVolume,
      sortAsc, insertSorted, indexOfQ, vaLoop, listMax, listMin, jsMax, jsMin, jsAbs,
      computeTechnicalSnapshot, calculateRSI, calculateSMA, calculateVWAP, calculateATR,
      calculateInitialBalance, classifyOpeningType, touchesLow, touchesHigh, gapScan,
      computeOrderFlowSnapshot, calculateDelta, cumulativeDeltaLast, calculateAnchoredVWAP,
      detectCVDDivergence, getTPOSignal, getRSISignal, fusedComponents, fusedDirection,
      calculateConfidence, selectStrike, RiskCalculator.fromTPO, weightsOfGenes, genesCX,
      demoPredCX]

/-- Claim C3 as amended: the backtest replay and the live fuser derive
their signals with the same functions and select the same direction (the
additive accumulation of the backtest equals the fuser direction rule on
every signal pair, and the backtest window direction is exactly that rule
applied to the window signals); only the confidence values differ. -/
theorem backtest_direction_matches_live :
    (∀ (b : TpoBias) (r : RsiSignal), backtestDirection b r = fusedDirection b r) ∧
    (∀ (window : List Candle) (genes : StrategyGenes),
      (backtestWindowScore window genes).map (fun s => s.2) =
        window.getLast?.bind (fun lastCandle =>
          (buildTPOProfile window (1/4) (7/10)).map (fun profile =>
            backtestDirection (getTPOSignal lastCandle.close profile).bias
              (match (computeTechnicalSnapshot window).rsi14 with
               | some r => getRSISignal r
               | none => RsiSignal.NEUTRAL)))) := by
  constructor
  · intro b r
    cases b <;> cases r <;> rfl
  · intro window genes
    cases hl : window.getLast? with
    | none => simp only [backtestWindowScore, hl, Option.none_bind, Option.map_none']
    | some lastCandle =>
      cases hbp : buildTPOProfile window (1/4) (7/10) with
      | none =>
        simp only [backtestWindowScore, hl, Option.some_bind, hbp, Option.map_none']
      | some profile =>
        simp only [backtestWindowScore, hl, hbp, Option.some_bind, Option.map_some']
        cases hb : (getTPOSignal lastCandle.close profile).bias <;>
          cases hr : (match (computeTechnicalSnapshot window).rsi14 with
            | some r => getRSISignal r
            | none => RsiSignal.NEUTRAL) <;>
          simp [backtestDirection, hb, hr]

/-! ## Theorems for claims C5, C6 and C7 -/

lemma tpomit_engine (ticker category : String) (weights : ConfidenceWeights)
    (candles : List Candle) (currentPrice : ℚ) (session : MarketSession)
    (p : Prediction)
    (hp : generateTPOMITPrediction ticker category weights candles currentPrice session
      = some p) :
    p.engine = .TPO_MIT := by
  unfold generateTPOMITPrediction at hp
  split at hp
  · exact absurd hp (by simp)
  · rcases Option.bind_eq_some.mp hp with ⟨prof, hprof, h2⟩
    dsimp only at h2
    split at h2
    · exact absurd h2 (by simp)
    · rcases Option.map_eq_some'.mp h2 with ⟨d, hd, hrec⟩
      rw [← hrec]

lemma orb_engine (ticker category : String) (candles : List Candle)
    (currentPrice : ℚ) (marketOpen now : ℤ) (session : MarketSession)
    (p : Prediction)
    (hp : generateORBPrediction ticker category candles currentPrice marketOpen now session
      = some p) :
    p.engine = .ORB_MOMENTUM := by
  unfold generateORBPrediction at hp
  by_cases htime : now < marketOpen + 30
  · rw [if_pos htime] at hp
    exact absurd hp (by simp)
  · rw [if_neg htime] at hp
    by_cases hcnt : (candles.filter
        (fun c => marketOpen ≤ c.timestamp ∧ c.timestamp < marketOpen + 30)).length < 5
    · rw [if_pos hcnt] at hp
      exact absurd hp (by simp)
    · rw [if_neg hcnt] at hp
      cases horb : calculateORB (candles.filter
          (fun c => marketOpen ≤ c.timestamp ∧ c.timestamp < marketOpen + 30)) with
      | none => rw [horb] at hp; exact absurd hp (by simp)
      | some orbLevels =>
        rw [horb] at hp
        simp only [Option.some_bind] at hp
        by_cases h1 : currentPrice > orbLevels.high
        · rw [if_pos h1] at hp
          simp only [Option.some_bind] at hp
          split at hp
          · exact absurd hp (by simp)
          · rw [← Option.some.inj hp]
        · rw [if_neg h1] at hp
          by_cases h2 : currentPrice < orbLevels.low
          · rw [if_pos h2] at hp
            simp only [Option.some_bind] at hp
            split at hp
            · exact absurd hp (by simp)
            · rw [← Option.some.inj hp]
          · rw [if_neg h2] at hp
            exact absurd hp (by simp)

lemma bs_neutral_none (bs : BlackScholesInput → BlackScholesOutput)
    (em : ℚ → ℚ → ℚ → ℚ) (ticker category : String) (spot vol : ℚ)
    (session : MarketSession) :
    generateBlackScholesPrediction bs em ticker category spot vol .NEUTRAL session
      = none := rfl

lemma cycleCandidate_not_bs (bs : BlackScholesInput → BlackScholesOutput)
    (em : ℚ → ℚ → ℚ → ℚ) (isPreMarket isTrading : Bool) (session : MarketSession)
    (ticker category : String) (currentPrice : ℚ) (candles : List Candle)
    (weights : ConfidenceWeights) (marketOpen now : ℤ) (pred : Prediction)
    (h : cycleCandidate bs em isPreMarket isTrading session ticker category
      currentPrice candles weights marketOpen now = some pred) :
    pred.engine ≠ .BLACK_SCHOLES := by
  unfold cycleCandidate at h
  cases isPreMarket with
  | true =>
    rw [if_pos rfl, bs_neutral_none] at h
    exact absurd h (by simp)
  | false =>
    rw [if_neg (by simp)] at h
    cases isTrading with
    | false => rw [if_neg (by simp)] at h; exact absurd h (by simp)
    | true =>
      rw [if_pos rfl] at h
      by_cases hlen : candles.length ≥ 30
      · rw [if_pos hlen] at h
        cases htpo : generateTPOMITPrediction ticker category weights candles
            currentPrice session with
        | some q =>
          rw [htpo] at h
          have h2 : some q = some pred := h
          rw [← Option.some.inj h2,
            tpomit_engine ticker category weights candles currentPrice session q htpo]
          simp
        | none =>
          rw [htpo] at h
          have h2 : (if session = .OPENING_RANGE ∧ candles.length ≥ 30
              then generateORBPrediction ticker category (candles.take 30) currentPrice
                marketOpen now session
              else none) = some pred := h
          split at h2
          · rw [orb_engine ticker category (candles.take 30) currentPrice
              marketOpen now session pred h2]
            simp
          · exact absurd h2 (by simp)
      · rw [if_neg hlen] at h
        exact absurd h (by simp)

lemma pairwise_eq_of_id {l : List StoredPrediction}
    (h : l.Pairwise (fun p q => p.id ≠ q.id))
    {a b : StoredPrediction} (ha : a ∈ l) (hb : b ∈ l) (hab : a.id = b.id) :
    a = b := by
  induction l with
  | nil => cases ha
  | cons x xs ih =>
    rcases List.pairwise_cons.mp h with ⟨hx, hxs⟩
    rcases List.mem_cons.mp ha with rfl | ha2
    · rcases List.mem_cons.mp hb with rfl | hb2
      · rfl
      · exact absurd hab (hx b hb2)
    · rcases List.mem_cons.mp hb with rfl | hb2
      · exact absurd hab.symm (hx a ha2)
      · exact ih hxs ha2 hb2

lemma setStatus_mem {preds : List StoredPrediction} {i : ℕ} {st : Status}
    {q2 : StoredPrediction} (h : q2 ∈ setStatus preds i st) :
    ∃ q ∈ preds, q2 = if q.id = i then { q with status := st } else q := by
  rcases List.mem_map.mp h with ⟨q, hq, hq2⟩
  exact ⟨q, hq, hq2.symm⟩

lemma setStatus_shape {q : StoredPrediction} {i : ℕ} {st : Status} :
    (if q.id = i then { q with status := st } else q).id = q.id ∧
    (if q.id = i then { q with status := st } else q).ticker = q.ticker ∧
    (if q.id = i then { q with status := st } else q).direction = q.direction ∧
    (if q.id = i then { q with status := st } else q).engine = q.engine ∧
    (if q.id = i then { q with status := st } else q).generatedDate = q.generatedDate := by
  split <;> exact ⟨rfl, rfl, rfl, rfl, rfl⟩

lemma dupCheck_false_no_dup {db : DB} {ticker : String} {pred : Prediction}
    (h : dupCheck db ticker pred = false) :
    ∀ q ∈ db.preds, q.status = .ACTIVE → q.ticker = ticker →
      ¬(q.direction = pred.direction ∧ q.engine = pred.engine) := by
  intro q hq hact htk hde
  unfold dupCheck at h
  have hqf : q ∈ db.preds.filter (fun r => r.status = .ACTIVE ∧ r.ticker = ticker) :=
    List.mem_filter.mpr ⟨hq, by simp [hact, htk]⟩
  have : (db.preds.filter (fun r => r.status = .ACTIVE ∧ r.ticker = ticker)).any
      (fun r => r.direction = pred.direction ∧ r.engine = pred.engine) = true :=
    List.any_eq_true.mpr ⟨q, hqf, by simp [hde.1, hde.2]⟩
  rw [this] at h
  cases h

lemma inv_init : Inv DB.init := by
  refine ⟨?_, ?_, ?_, ⟨?_, ?_⟩, ?_⟩
  · intro p hp; cases hp
  · exact List.Pairwise.nil
  · intro p hp; cases hp
  · intro p hp; cases hp
  · intro o ho; cases ho
  · intro p hp; cases hp

lemma inv_tick {bs : BlackScholesInput → BlackScholesOutput}
    {em : ℚ → ℚ → ℚ → ℚ} {db : DB} (hinv : Inv db)
    (isPreMarket isTrading : Bool) (session : MarketSession)
    (ticker category : String) (currentPrice : ℚ) (candles : List Candle)
    (weights : ConfidenceWeights) (marketOpen now : ℤ) (today : ℕ)
    (pred : Prediction) (oEntryPrice oEntry oStop oTarget : Option ℚ)
    (hgen : cycleCandidate bs em isPreMarket isTrading session ticker category
      currentPrice candles weights marketOpen now = some pred)
    (hdup : dupCheck db ticker pred = false) :
    Inv (tickInsert db ticker today pred oEntryPrice oEntry oStop oTarget) := by
  obtain ⟨hbelow, hids, hau, ⟨hoc1, hoc2⟩, hbs⟩ := hinv
  refine ⟨?_, ?_, ?_, ⟨?_, ?_⟩, ?_⟩
  · intro p hp
    rcases List.mem_cons.mp hp with rfl | hp2
    · exact Nat.lt_succ_self _
    · exact Nat.lt_succ_of_lt (hbelow p hp2)
  · refine List.pairwise_cons.mpr ⟨?_, hids⟩
    intro q hq
    exact fun hcontra => absurd (hcontra ▸ hbelow q hq) (lt_irrefl _)
  · intro p hp q hq hap haq htk hdir heng
    rcases List.mem_cons.mp hp with rfl | hp2
    · rcases List.mem_cons.mp hq with rfl | hq2
      · rfl
      · exact absurd ⟨by exact hdir.symm, by exact heng.symm⟩
          (dupCheck_false_no_dup hdup q hq2 haq (by exact htk.symm))
    · rcases List.mem_cons.mp hq with rfl | hq2
      · exact absurd ⟨by exact hdir, by exact heng⟩
          (dupCheck_false_no_dup hdup p hp2 hap (by exact htk))
      · exact hau p hp2 q hq2 hap haq htk hdir heng
  · intro p hp
    rcases List.mem_cons.mp hp with rfl | hp2
    · have hzero : db.outcomes.countP
          (fun o => o.predictionId = db.nextId) = 0 := by
        rw [List.countP_eq_zero]
        intro o ho
        rcases hoc2 o ho with ⟨r, hr, hid, _⟩
        simp only [decide_eq_true_eq]
        rw [hid]
        exact Nat.ne_of_lt (hbelow r hr)
      simpa using hzero
    · simpa using hoc1 p hp2
  · intro o ho
    rcases hoc2 o ho with ⟨r, hr, hid, hcl⟩
    exact ⟨r, List.mem_cons_of_mem _ hr, hid, hcl⟩
  · intro p hp
    rcases List.mem_cons.mp hp with rfl | hp2
    · exact cycleCandidate_not_bs bs em isPreMarket isTrading session ticker category
        currentPrice candles weights marketOpen now pred hgen
    · exact hbs p hp2

lemma inv_setStatus_common {db : DB} (hinv : Inv db) (p : StoredPrediction)
    (hmem : p ∈ db.preds) (hact : p.status = .ACTIVE) (st : Status)
    (hst : st ≠ .ACTIVE) :
    (∀ q ∈ setStatus db.preds p.id st, q.id < db.nextId) ∧
    (setStatus db.preds p.id st).Pairwise (fun a b => a.id ≠ b.id) ∧
    (∀ a ∈ setStatus db.preds p.id st, ∀ b ∈ setStatus db.preds p.id st,
      a.status = .ACTIVE → b.status = .ACTIVE →
      a.ticker = b.ticker → a.direction = b.direction → a.engine = b.engine → a = b) ∧
    (∀ q2 ∈ setStatus db.preds p.id st, q2.engine ≠ .BLACK_SCHOLES) := by
  obtain ⟨hbelow, hids, hau, _, hbs⟩ := hinv
  refine ⟨?_, ?_, ?_, ?_⟩
  · intro q2 hq2
    rcases setStatus_mem hq2 with ⟨q, hq, rfl⟩
    rw [setStatus_shape.1]
    exact hbelow q hq
  · refine List.Pairwise.map _ ?_ hids
    intro a b hab
    intro hcontra
    apply hab
    calc a.id = (if a.id = p.id then { a with status := st } else a).id := by
          split <;> rfl
      _ = (if b.id = p.id then { b with status := st } else b).id := hcontra
      _ = b.id := by split <;> rfl
  · intro a2 ha2 b2 hb2 haa hab htk hdir heng
    rcases setStatus_mem ha2 with ⟨a, ha, rfl⟩
    rcases setStatus_mem hb2 with ⟨b, hb, rfl⟩
    by_cases hia : a.id = p.id
    · rw [if_pos hia] at haa
      exact absurd haa (by simpa using hst)
    · by_cases hib : b.id = p.id
      · rw [if_pos hib] at hab
        exact absurd hab (by simpa using hst)
      · rw [if_neg hia] at haa htk hdir heng ⊢
        rw [if_neg hib] at hab htk hdir heng ⊢
        exact hau a ha b hb haa hab htk hdir heng
  · intro q2 hq2
    rcases setStatus_mem hq2 with ⟨q, hq, rfl⟩
    rw [setStatus_shape.2.2.2.1]
    exact hbs q hq

lemma inv_grade {db : DB} (hinv : Inv db) (p : StoredPrediction) (close : ℚ)
    (hmem : p ∈ db.preds) (hact : p.status = .ACTIVE) :
    Inv (gradeStep db p close) := by
  have hcommon := inv_setStatus_common hinv p hmem hact .CLOSED (by simp)
  obtain ⟨hbelow, hids, hau, ⟨hoc1, hoc2⟩, hbs⟩ := hinv
  refine ⟨hcommon.1, hcommon.2.1, hcommon.2.2.1, ⟨?_, ?_⟩, hcommon.2.2.2⟩
  · intro q2 hq2
    have hq2b : q2 ∈ setStatus db.preds p.id .CLOSED := hq2
    rcases setStatus_mem hq2b with ⟨q, hq, rfl⟩
    show (db.outcomes ++ [gradeOutcome p close]).countP _ = _
    rw [List.countP_append]
    by_cases hiq : q.id = p.id
    · have hqp : q = p := pairwise_eq_of_id hids hq hmem hiq
      subst hqp
      rw [if_pos hiq]
      have h0 : db.outcomes.countP
          (fun o => decide (o.predictionId = q.id)) = 0 := by
        have hc := hoc1 q hq
        rwa [if_neg (by rw [hact]; simp)] at hc
      rw [show ({ q with status := Status.CLOSED } : StoredPrediction).id = q.id from rfl,
        show ({ q with status := Status.CLOSED } : StoredPrediction).status
          = Status.CLOSED from rfl, h0]
      have hgid : (gradeOutcome q close).predictionId = q.id := rfl
      simp [List.countP_cons, hgid]
    · rw [if_neg hiq]
      have hone : (List.countP (fun o => decide (o.predictionId = q.id))
          [gradeOutcome p close]) = 0 := by
        have hgid : (gradeOutcome p close).predictionId = p.id := rfl
        simp only [List.countP_cons, List.countP_nil, hgid]
        simp [Ne.symm hiq]
      rw [hone, hoc1 q hq]
      simp
  · intro o ho
    have hob : o ∈ db.outcomes ++ [gradeOutcome p close] := ho
    rcases List.mem_append.mp hob with ho1 | ho2
    · rcases hoc2 o ho1 with ⟨r, hr, hid, hcl⟩
      have hrp : r.id ≠ p.id := by
        intro hc
        have hreq : r = p := pairwise_eq_of_id hids hr hmem hc
        rw [hreq, hact] at hcl
        cases hcl
      refine ⟨if r.id = p.id then { r with status := .CLOSED } else r,
        List.mem_map_of_mem _ hr, ?_, ?_⟩
      · rw [if_neg hrp]; exact hid
      · rw [if_neg hrp]; exact hcl
    · have ho0 : o.predictionId = p.id := by
        rcases List.mem_singleton.mp ho2 with rfl
        rfl
      refine ⟨{ p with status := .CLOSED }, ?_, by rw [ho0], rfl⟩
      have hm2 : (if p.id = p.id then { p with status := Status.CLOSED } else p)
          ∈ setStatus db.preds p.id .CLOSED := List.mem_map_of_mem _ hmem
      rwa [if_pos rfl] at hm2

lemma inv_expire {db : DB} (hinv : Inv db) (p : StoredPrediction)
    (hmem : p ∈ db.preds) (hact : p.status = .ACTIVE) :
    Inv { preds := setStatus db.preds p.id .EXPIRED
          outcomes := db.outcomes
          nextId := db.nextId } := by
  have hcommon := inv_setStatus_common hinv p hmem hact .EXPIRED (by simp)
  obtain ⟨hbelow, hids, hau, ⟨hoc1, hoc2⟩, hbs⟩ := hinv
  refine ⟨hcommon.1, hcommon.2.1, hcommon.2.2.1, ⟨?_, ?_⟩, hcommon.2.2.2⟩
  · intro q2 hq2
    rcases setStatus_mem hq2 with ⟨q, hq, rfl⟩
    by_cases hiq : q.id = p.id
    · have hqp : q = p := pairwise_eq_of_id hids hq hmem hiq
      subst hqp
      rw [if_pos rfl]
      have h0 : db.outcomes.countP (fun o => o.predictionId = q.id) = 0 := by
        have := hoc1 q hq
        rwa [if_neg (by rw [hact]; simp)] at this
      simpa using h0
    · rw [if_neg hiq]
      exact hoc1 q hq
  · intro o ho
    rcases hoc2 o ho with ⟨r, hr, hid, hcl⟩
    have hrp : r.id ≠ p.id := by
      intro hc
      have : r = p := pairwise_eq_of_id hids hr hmem hc
      rw [this, hact] at hcl
      cases hcl
    refine ⟨if r.id = p.id then { r with status := .EXPIRED } else r,
      List.mem_map_of_mem _ hr, ?_, ?_⟩
    · rw [if_neg hrp]; exact hid
    · rw [if_neg hrp]; exact hcl

lemma inv_step {bs : BlackScholesInput → BlackScholesOutput}
    {em : ℚ → ℚ → ℚ → ℚ} {db db2 : DB} (hinv : Inv db)
    (hstep : Step bs em db db2) : Inv db2 := by
  cases hstep with
  | tick isPreMarket isTrading session ticker category currentPrice candles weights
      marketOpen now today pred oEntryPrice oEntry oStop oTarget hgen hconf hdup =>
    exact inv_tick hinv isPreMarket isTrading session ticker category currentPrice
      candles weights marketOpen now today pred oEntryPrice oEntry oStop oTarget hgen hdup
  | grade p close hmem hact hprem => exact inv_grade hinv p close hmem hact
  | expire p today hmem hact hstale => exact inv_expire hinv p hmem hact

lemma reachable_inv {bs : BlackScholesInput → BlackScholesOutput}
    {em : ℚ → ℚ → ℚ → ℚ} {db : DB} (h : Reachable bs em db) : Inv db := by
  induction h with
  | init => exact inv_init
  | step hr hs ih => exact inv_step ih hs

lemma demo_cycle_eval (bs : BlackScholesInput → BlackScholesOutput)
    (em : ℚ → ℚ → ℚ → ℚ) :
    cycleCandidate bs em false true .MORNING "SPY" "SPY_DAILY" 101 w30
      DEFAULT_WEIGHTS 0 31 = some demoPred := by
  have hlen : w30.length = 30 := by norm_num [w30, flatCandles]
  unfold cycleCandidate
  rw [if_neg (by simp), if_pos rfl, if_pos (by rw [hlen]), demo_tpomit_eval]

lemma demo_reachable (bs : BlackScholesInput → BlackScholesOutput)
    (em : ℚ → ℚ → ℚ → ℚ) : Reachable bs em demoDB :=
  Reachable.step Reachable.init
    (Step.tick DB.init false true .MORNING "SPY" "SPY_DAILY" 101 w30 DEFAULT_WEIGHTS
      0 31 0 demoPred (some (6/5)) (some (6/5)) (some (3/5)) (some (12/5))
      (demo_cycle_eval bs em) (by norm_num [demoPred]) rfl)

lemma demo_reachable2 (bs : BlackScholesInput → BlackScholesOutput)
    (em : ℚ → ℚ → ℚ → ℚ) : Reachable bs em demoDB2 :=
  Reachable.step (demo_reachable bs em)
    (Step.grade demoDB demoPredRow 454 (List.mem_cons_self _ _) rfl
      (by norm_num [demoPredRow]))

set_option maxHeartbeats 1000000 in
/-- Claim C5: the daemon invokes the Black-Scholes engine with bias fixed
to NEUTRAL, for which generatePreMarketPrediction returns null, so along
every execution of the loop no prediction with engine BLACK_SCHOLES is
ever produced or persisted. -/
theorem blackscholes_never_persisted (bs : BlackScholesInput → BlackScholesOutput)
    (em : ℚ → ℚ → ℚ → ℚ) :
    (∀ (ticker : String) (spot vol rfr : ℚ),
      generatePreMarketPrediction bs em ticker spot vol rfr .NEUTRAL = none) ∧
    (∀ (ticker category : String) (spot vol : ℚ) (session : MarketSession),
      generateBlackScholesPrediction bs em ticker category spot vol .NEUTRAL session
        = none) ∧
    (∀ db : DB, Reachable bs em db → NoBSEngine db) :=
  ⟨fun _ _ _ _ => rfl,
   fun ticker category spot vol session =>
     bs_neutral_none bs em ticker category spot vol session,
   fun db h => (reachable_inv h).2.2.2.2⟩

/-- Witness for claim C5: a state reached by one tick that stored a
TPO+MIT prediction; no row in it carries the Black-Scholes engine. -/
theorem blackscholes_never_persisted_witness :
    Reachable bs0 em0 demoDB ∧ NoBSEngine demoDB :=
  ⟨demo_reachable bs0 em0,
   (blackscholes_never_persisted bs0 em0).2.2 demoDB (demo_reachable bs0 em0)⟩

/-- Claim C6: in every reachable state, at most one prediction per
(ticker, direction, engine) is ACTIVE: the tick inserts only under the
duplicate check, and grading or expiring only move rows out of ACTIVE. -/
theorem active_unique_invariant (bs : BlackScholesInput → BlackScholesOutput)
    (em : ℚ → ℚ → ℚ → ℚ) (db : DB) (h : Reachable bs em db) :
    ActiveUnique db :=
  (reachable_inv h).2.2.1

/-- Witness for claim C6: the invariant at the one-prediction state. -/
theorem active_unique_invariant_witness :
    Reachable bs0 em0 demoDB ∧ ActiveUnique demoDB :=
  ⟨demo_reachable bs0 em0,
   active_unique_invariant bs0 em0 demoDB (demo_reachable bs0 em0)⟩

/-- Claim C7: in every reachable state a prediction has exactly one
outcome row when its status is CLOSED and none otherwise, and every
outcome row belongs to a CLOSED prediction: the grader writes exactly one
outcome when it closes a row, and expiry writes none. -/
theorem outcome_coupling_invariant (bs : BlackScholesInput → BlackScholesOutput)
    (em : ℚ → ℚ → ℚ → ℚ) (db : DB) (h : Reachable bs em db) :
    OutcomeCoupling db :=
  (reachable_inv h).2.2.2.1

/-- Witness for claim C7: the coupling at a state where the grader has
closed the stored prediction and written its single outcome row. -/
theorem outcome_coupling_invariant_witness :
    Reachable bs0 em0 demoDB2 ∧ OutcomeCoupling demoDB2 :=
  ⟨demo_reachable2 bs0 em0,
   outcome_coupling_invariant bs0 em0 demoDB2 (demo_reachable2 bs0 em0)⟩

end Aurora
